import Mathlib

/-!
Verification of the MoodPlayl.ist Spotify client core
(`src/spotifyAuth.js` and the fallback-first `src/spotifyService.js`).

The JavaScript is shallowly embedded: `localStorage` becomes an explicit
`Store` record, time is an explicit `now : Int` (epoch milliseconds),
network I/O is an oracle `Env` mapping the index of each HTTP call to its
outcome, and every `throw new Error(msg)` becomes `Except.error msg`.
Each embedded function threads a state `St` that also records an event
trace (refresh attempts, token-endpoint requests, API dispatches) so
that ordering properties ("before any network call", "exactly one
re-dispatch") are statable.
-/

set_option maxRecDepth 4000
set_option linter.unusedVariables false

namespace MoodPlaylist

/-- JavaScript values as far as this client inspects them: the client only
reads JSON bodies (objects, arrays, strings, numbers, booleans, null).
Numbers are modelled as integers; every numeric literal the code compares
against is an integer. -/
inductive JVal where
  | null : JVal
  | bool (b : Bool) : JVal
  | num (n : Int) : JVal
  | str (s : String) : JVal
  | arr (xs : List JVal) : JVal
  | obj (fields : List (String × JVal)) : JVal

/-- JS truthiness of a value (`null`, `false`, `0`, `""` are falsy;
objects and arrays are always truthy). -/
def jsTruthyV : JVal → Bool
  | .null => false
  | .bool b => b
  | .num n => n != 0
  | .str s => s != ""
  | .arr _ => true
  | .obj _ => true

/-- Property access `v.k` (and the guarded `v?.k`): defined only on
objects, `none` models JS `undefined`. -/
def jGet : JVal → String → Option JVal
  | .obj fields, k => fields.lookup k
  | _, _ => none

mutual

/-- JS `String(v)` for the values this client stringifies (strings,
numbers, array joins; `String([..])` joins recursively with commas). -/
def jsToString : JVal → String
  | .null => "null"
  | .bool b => if b then "true" else "false"
  | .num n => toString n
  | .str s => s
  | .arr xs => String.intercalate "," (jsToStringArr xs)
  | .obj _ => "[object Object]"

/-- Element-wise stringification of a JS array. -/
def jsToStringArr : List JVal → List String
  | [] => []
  | x :: xs => jsToString x :: jsToStringArr xs

end

/-- Truthiness of a nullable string (JS `!s` on a `localStorage` read or
an optional argument). -/
def jsTruthyStr : Option String → Bool
  | some s => s != ""
  | none => false

/-- `mood.charAt(0).toUpperCase() + mood.slice(1)`. -/
def jsCapitalize (s : String) : String :=
  match s.data with
  | [] => ""
  | c :: rest => String.mk (c.toUpper :: rest)

/-- `s.startsWith(pre)`, computed on the character lists (the library
version's byte-scanning loop is observationally identical). -/
def strStartsWith (s pre : String) : Bool :=
  pre.data.isPrefixOf s.data

/-- `s.toLowerCase()` on the ASCII alphabet this client uses. -/
def strToLower (s : String) : String :=
  String.mk (s.data.map Char.toLower)

/-- Split a character list on a single separator character
(`String.prototype.split` with a one-character separator). -/
def splitOnCharAux (c : Char) : List Char → List (List Char)
  | [] => [[]]
  | x :: xs =>
    match splitOnCharAux c xs with
    | [] => if x = c then [[], []] else [[x]]
    | y :: ys => if x = c then [] :: y :: ys else (x :: y) :: ys

/-- `s.split(c)` for a one-character separator. -/
def strSplitOnChar (c : Char) (s : String) : List String :=
  (splitOnCharAux c s.data).map String.mk

/-- Is `sub` a contiguous substring of `s`? (Used only to state claims
about what a URL or error message mentions.) -/
def listContainsSub (needle : List Char) : List Char → Bool
  | [] => needle.isEmpty
  | x :: xs => needle.isPrefixOf (x :: xs) || listContainsSub needle xs

/-- `s.includes(sub)`. -/
def strContains (s sub : String) : Bool :=
  listContainsSub sub.data s.data

/-- The `expires_in` field of a token-endpoint JSON response, as the
shapes the code's `Number.isFinite(Number(data.expires_in))` guard
distinguishes: a number, a numeric string, a non-numeric string,
JSON `null`, or absent (`undefined`). -/
inductive ExpiresIn where
  | absent : ExpiresIn
  | num (n : Nat) : ExpiresIn
  | numStr (n : Nat) : ExpiresIn
  | nanStr : ExpiresIn
  | null : ExpiresIn
deriving DecidableEq, Repr

/-- JS `Number(x)` on an `expires_in` value; `none` is `NaN`.
`Number(undefined) = NaN`, `Number(null) = 0`, numeric strings parse,
non-numeric strings give `NaN`. -/
def jsNumberOf : ExpiresIn → Option Nat
  | .absent => none
  | .num n => some n
  | .numStr n => some n
  | .nanStr => none
  | .null => some 0

/-- `Number.isFinite(Number(e)) ? Number(e) : 3600`
(spotifyAuth.js lines 135 and 178). -/
def lifetimeOf (e : ExpiresIn) : Nat :=
  (jsNumberOf e).getD 3600

/-- The `localStorage` keys the client owns (spec section 6):
`access_token`, `refresh_token`, `token_expiry`, `code_verifier`,
`pkce_state`.  `token_expiry` is stored stringified and `parseInt`-ed
back; it is modelled directly as the integer. -/
structure Store where
  access_token : Option String := none
  refresh_token : Option String := none
  token_expiry : Option Int := none
  code_verifier : Option String := none
  pkce_state : Option String := none
deriving DecidableEq, Repr

/-- `clearAllTokens()` removes exactly those five keys. -/
def emptyStore : Store := {}

/-- Observable events of a run, in order: entry into
`refreshAccessToken`, an HTTP request to the token endpoint, and an API
dispatch (the `fetch` in `spotifyFetch`) with its full URL, method, the
bearer token used, and the JSON body. -/
inductive Event where
  | refreshCall : Event
  | tokenRequest : Event
  | dispatch (url : String) (method : String) (token : String)
      (body : Option JVal) : Event

/-- Mutable world state threaded through every embedded function. -/
structure St where
  store : Store := {}
  now : Int := 0
  apiCount : Nat := 0
  tokCount : Nat := 0
  events : List Event := []

/-- An HTTP response as `spotifyFetch` inspects it: status, status text,
the raw body text (`none` when reading the body itself failed) and its
JSON parse (`none` when the body is not valid JSON). -/
structure HttpResp where
  status : Nat
  statusText : String
  bodyText : Option String
  bodyJson : Option JVal

/-- Outcome of one `fetch` against the API: transport failure or a
response. -/
inductive FetchOut where
  | net : FetchOut
  | resp (r : HttpResp) : FetchOut

/-- Outcome of one POST to the token endpoint: transport failure, or a
response with `ok` flag, the recognized JSON fields, and the error body
text read on the non-ok path. -/
inductive TokenOut where
  | net : TokenOut
  | resp (ok : Bool) (accessToken : Option String)
      (refreshToken : Option String) (expiresIn : ExpiresIn)
      (errText : String) : TokenOut
deriving DecidableEq, Repr

/-- The network oracle: the n-th API dispatch and the n-th token-endpoint
request receive these outcomes. -/
structure Env where
  api : Nat → FetchOut
  tok : Nat → TokenOut

/-- `refreshAccessToken()` — spotifyAuth.js lines 148-182.  Requires a
stored refresh token (clearing all credentials if absent), POSTs a
`grant_type=refresh_token` request, clears credentials on a non-ok
response or a response without an access token, and on success stores
the new access token, the rotated refresh token if one was issued, and
`Date.now() + expiresIn * 1000` as the new expiry. -/
def refreshAccessToken (env : Env) (s : St) : Except String String × St :=
  let s0 := { s with events := s.events ++ [Event.refreshCall] }
  if ¬ jsTruthyStr s0.store.refresh_token then
    (.error "No refresh token available; re-authorization required.",
     { s0 with store := emptyStore })
  else
    let s1 := { s0 with tokCount := s0.tokCount + 1,
                        events := s0.events ++ [Event.tokenRequest] }
    match env.tok s0.tokCount with
    | .net => (.error "Failed to fetch", s1)
    | .resp ok accTok rt2 ei errText =>
      if ¬ ok then
        (.error ("Refresh token failed: " ++ errText),
         { s1 with store := emptyStore })
      else if ¬ jsTruthyStr accTok then
        (.error "No access token returned when refreshing.",
         { s1 with store := emptyStore })
      else
        let a := accTok.getD ""
        let st1 := { s1.store with access_token := some a }
        let st2 := if jsTruthyStr rt2 then { st1 with refresh_token := rt2 }
                   else st1
        let st3 := { st2 with
                     token_expiry := some (s1.now + (lifetimeOf ei : Int) * 1000) }
        (.ok a, { s1 with store := st3 })

/-- `exchangeCodeForToken(code, returnedState)` — spotifyAuth.js lines
91-143.  Requires a stored PKCE verifier (clearing credentials if
absent); if a stored state and a returned state are both present and
differ, clears credentials and fails with the CSRF message; otherwise
POSTs an `authorization_code` exchange, clears credentials on a non-ok
response or a missing access token, and on success stores the tokens and
expiry and deletes the verifier and state. -/
def exchangeCodeForToken (env : Env) (code : String)
    (returnedState : Option String) (s : St) : Except String String × St :=
  let codeVerifier := s.store.code_verifier
  let storedState := s.store.pkce_state
  if ¬ jsTruthyStr codeVerifier then
    (.error "PKCE verifier missing. Please try logging in again.",
     { s with store := emptyStore })
  else if jsTruthyStr storedState ∧ jsTruthyStr returnedState ∧
      storedState ≠ returnedState then
    (.error "State mismatch. Possible CSRF attack. Login again.",
     { s with store := emptyStore })
  else
    let s1 := { s with tokCount := s.tokCount + 1,
                       events := s.events ++ [Event.tokenRequest] }
    match env.tok s.tokCount with
    | .net => (.error "Failed to fetch", s1)
    | .resp ok accTok rt ei errText =>
      if ¬ ok then
        (.error ("Spotify Token Error: " ++ errText),
         { s1 with store := emptyStore })
      else if ¬ jsTruthyStr accTok then
        (.error "No access token received from Spotify.",
         { s1 with store := emptyStore })
      else
        let a := accTok.getD ""
        let st1 := { s1.store with access_token := some a }
        let st2 := if jsTruthyStr rt then { st1 with refresh_token := rt }
                   else st1
        let st3 := { st2 with
                     token_expiry := some (s1.now + (lifetimeOf ei : Int) * 1000),
                     code_verifier := none,
                     pkce_state := none }
        (.ok a, { s1 with store := st3 })

/-! ### The resilient request executor (`spotifyFetch`, part_002 lines 119-191) -/

/-- The slice of `fetch` options `spotifyFetch` consumes: the method
(defaulting to GET) and the JSON body.  `JSON.stringify` of a body
object is modelled by carrying the object itself. -/
structure Opts where
  method : String := "GET"
  body : Option JVal := none

def API_BASE_URL : String := "https://api.spotify.com/v1"

/-- `buildFullUrl` (part_002 lines 107-113): empty input yields the base
URL, absolute URLs pass through, a bare `api.spotify.com...` gets an
`https://` prefix, a leading-slash path is appended to the base, and
anything else is appended with a separating slash.  (The source's
case-insensitive regexes are modelled by the lower-case prefixes the
code itself always uses.) -/
def buildFullUrl (url : String) : String :=
  if url = "" then API_BASE_URL
  else if strStartsWith url "https://" ∨ strStartsWith url "http://" then url
  else if strStartsWith url "api.spotify.com" then
    "https://" ++ String.mk (url.data.dropWhile (· = '/'))
  else if strStartsWith url "/" then API_BASE_URL ++ url
  else API_BASE_URL ++ "/" ++ url

/-- Error-message extraction of the non-ok branch (part_002 line 181):
`(bodyJson && (bodyJson.error?.message || bodyJson.message)) || bodyText
|| response.statusText || "HTTP " + status`. -/
def respErrMsg (r : HttpResp) : String :=
  let fromJson : Option JVal :=
    match r.bodyJson with
    | some j =>
      if jsTruthyV j then
        match (jGet j "error").bind (fun e => jGet e "message") with
        | some v => if jsTruthyV v then some v else jGet j "message"
        | none => jGet j "message"
      else none
    | none => none
  match fromJson with
  | some v =>
    if jsTruthyV v then jsToString v
    else match r.bodyText with
      | some t =>
        if t ≠ "" then t
        else if r.statusText ≠ "" then r.statusText
        else "HTTP " ++ toString r.status
      | none =>
        if r.statusText ≠ "" then r.statusText
        else "HTTP " ++ toString r.status
  | none =>
    match r.bodyText with
    | some t =>
      if t ≠ "" then t
      else if r.statusText ≠ "" then r.statusText
      else "HTTP " ++ toString r.status
    | none =>
      if r.statusText ≠ "" then r.statusText
      else "HTTP " ++ toString r.status

/-- Step 1 of `spotifyFetch` (part_002 lines 124-127):
`let currentToken = token || getStoredAccessToken()`, and when that is
falsy, try `refreshAccessToken()`, clearing credentials and failing with
the sign-in message if the refresh throws. -/
def resolveToken (env : Env) (token : Option String) (s : St) :
    Except String String × St :=
  let t0 : Option String :=
    match token with
    | some t => if t ≠ "" then some t else s.store.access_token
    | none => s.store.access_token
  if jsTruthyStr t0 then (.ok (t0.getD ""), s)
  else
    match refreshAccessToken env s with
    | (.ok t, s') => (.ok t, s')
    | (.error _, s') =>
      (.error "No access token available. Please sign in.",
       { s' with store := emptyStore })

/-- Step 2 of `spotifyFetch` (part_002 lines 129-132): when an expiry is
stored and `Date.now() > parseInt(expiry) - 5000`, refresh proactively,
clearing credentials and failing with the session-expired message if the
refresh throws; otherwise keep the resolved token. -/
def expiryRefresh (env : Env) (currentTok : String) (s1 : St) :
    Except String String × St :=
  let needRefresh : Bool :=
    match s1.store.token_expiry with
    | some e => s1.now > e - 5000
    | none => false
  if needRefresh then
    match refreshAccessToken env s1 with
    | (.ok t, s2) => (.ok t, s2)
    | (.error _, s2) =>
      (.error "Session expired. Please log in again.",
       { s2 with store := emptyStore })
  else (.ok currentTok, s1)

/-- The dispatch-and-classify tail of `spotifyFetch` (part_002 lines
134-190), from the `fetch` call onward, for an already-resolved token
`tok2`.  `retry` is the source's recursive
`spotifyFetch(url, newToken, options, retries + 1)` call, passed in by
`spotifyFetchF` below.

In source order: dispatch (recording the event and advancing the call
counter); a transport error fails with the network message; on 401 with
`retries === 0`, refresh and re-dispatch once via `retry` (a failing
refresh clears credentials and fails); 204 yields `{}`; other non-2xx
statuses classify into 403 (credentials cleared) / 404 / generic, with
the message from `respErrMsg`; a 2xx returns the parsed JSON body,
falling back to the raw text. -/
def dispatchAndClassify (env : Env) (url : String) (opts : Opts)
    (retries : Nat) (retry : String → St → Except String JVal × St)
    (tok2 : String) (s2 : St) : Except String JVal × St :=
  let fullUrl := buildFullUrl url
  let out := env.api s2.apiCount
  let s3 := { s2 with
              apiCount := s2.apiCount + 1,
              events := s2.events ++
                [Event.dispatch fullUrl opts.method tok2 opts.body] }
  match out with
  | .net => (.error "Network error while contacting Spotify API.", s3)
  | .resp r =>
    if r.status = 401 ∧ retries = 0 then
      match refreshAccessToken env s3 with
      | (.ok newTok, s4) => retry newTok s4
      | (.error _, s4) =>
        (.error "Session expired. Please log in again.",
         { s4 with store := emptyStore })
    else if r.status = 204 then (.ok (JVal.obj []), s3)
    else if ¬ (200 ≤ r.status ∧ r.status < 300) then
      let msg := respErrMsg r
      if r.status = 403 then
        (.error ("Spotify 403: " ++ msg), { s3 with store := emptyStore })
      else if r.status = 404 then
        (.error ("Spotify 404: " ++ msg), s3)
      else
        (.error ("Spotify API Error " ++ toString r.status ++ ": " ++ msg), s3)
    else
      match r.bodyJson with
      | some j => (.ok j, s3)
      | none =>
        match r.bodyText with
        | some t =>
          if t ≠ "" then (.ok (JVal.str t), s3)
          else (.ok (JVal.obj []), s3)
        | none => (.ok (JVal.obj []), s3)

/-- Fuelled body of `spotifyFetch` (part_002 lines 119-191).  The fuel
only feeds the single recursive re-dispatch on 401 — the source recurses
on itself with `retries + 1` and the recursion is guarded by
`retries === 0`, so fuel 2 is exact; the out-of-fuel branch is
unreachable from `spotifyFetch` below.

Steps 1-2, in source order: resolve a token (argument, else stored, else
`refreshAccessToken`, clearing credentials and failing if that throws);
proactively refresh when `Date.now() > parseInt(expiry) - 5000`
(clearing credentials and failing with the session-expired message if
the refresh throws); then hand over to `dispatchAndClassify`. -/
def spotifyFetchF : Nat → Env → String → Option String → Opts → Nat → St →
    Except String JVal × St
  | fuel, env, url, token, opts, retries, s =>
    match resolveToken env token s with
    | (.error e, s1) => (.error e, s1)
    | (.ok currentTok, s1) =>
      match expiryRefresh env currentTok s1 with
      | (.error e, s2) => (.error e, s2)
      | (.ok tok2, s2) =>
        dispatchAndClassify env url opts retries
          (fun newTok s4 =>
            match fuel with
            | 0 => (.error "model: out of retry fuel", s4)
            | fuel' + 1 =>
              spotifyFetchF fuel' env url (some newTok) opts (retries + 1) s4)
          tok2 s2

/-- `spotifyFetch(url, token, options, retries)`: the fuelled body at
fuel 2, which the `retries === 0` guard makes exact. -/
def spotifyFetch (env : Env) (url : String) (token : Option String)
    (opts : Opts) (retries : Nat) (s : St) : Except String JVal × St :=
  spotifyFetchF 2 env url token opts retries s

/-! ### Recommendation / playlist orchestrator (part_002 lines 193-341) -/

/-- The fixed mood → audio-target table (part_002 lines 91-96).  Values
are the `String(v)` forms in which they reach the query string; entry
order is JS object insertion order. -/
def moodMap (m : String) : Option (List (String × String)) :=
  if m = "excited" then
    some [("target_valence", "0.85"), ("target_energy", "0.9"),
          ("target_danceability", "0.7"), ("min_tempo", "120")]
  else if m = "chill" then
    some [("target_valence", "0.7"), ("target_energy", "0.4"),
          ("target_danceability", "0.5"), ("max_tempo", "110")]
  else if m = "sad" then
    some [("target_valence", "0.2"), ("target_energy", "0.3"),
          ("target_danceability", "0.4"), ("max_tempo", "90")]
  else if m = "pumped" then
    some [("target_valence", "0.5"), ("target_energy", "0.95"),
          ("target_danceability", "0.6"), ("min_tempo", "140")]
  else none

/-- The built-in last-resort track list (part_002 lines 99-105). -/
def STATIC_FALLBACK_URIS : List JVal :=
  [.str "spotify:track:3n3Ppam7vgaVa1iaRUc9Lp",
   .str "spotify:track:7ouMYWpwJ422jRcDASZB7P",
   .str "spotify:track:4uLU6hMCjMI75M1A2tKUQC",
   .str "spotify:track:0VjIjW4GlUZAMYd2vXMi3b",
   .str "spotify:track:2XU0oxnq2qxCpomAAuJY8K"]

/-- `URLSearchParams.set`: replace the value in place if the key exists,
append otherwise.  (Keys are unique in every use below, matching the
real delete-duplicates semantics.) -/
def paramsSet (ps : List (String × String)) (k v : String) :
    List (String × String) :=
  if ps.any (fun p => p.1 = k) then
    ps.map (fun p => if p.1 = k then (k, v) else p)
  else ps ++ [(k, v)]

/-- `URLSearchParams.toString`, without percent-encoding: the claims
below only inspect key names and unreserved characters (the one encoded
character in play, the comma of a seed list, stays a comma in the
model). -/
def paramsToString (ps : List (String × String)) : String :=
  String.intercalate "&" (ps.map (fun p => p.1 ++ "=" ++ p.2))

/-- `buildRecommendationParams(targets, {limit: 25})` of part_002 lines
201-211: sets `limit`, then every mood target (all targets are numbers,
so the source's type filter always passes); this variant deliberately
sets no `seed_genres`. -/
def buildRecommendationParams (targets : List (String × String))
    (limit : Nat) : List (String × String) :=
  targets.foldl (fun ps p => paramsSet ps p.1 p.2)
    (paramsSet [] "limit" (toString limit))

/-- `items.map(a => a.id).filter(Boolean)`. -/
def extractIds (xs : List JVal) : List JVal :=
  (xs.map (fun a => (jGet a "id").getD JVal.null)).filter jsTruthyV

/-- `tracks.map(t => t?.uri).filter(Boolean)` (also used for
`items.map(t => t?.uri)`). -/
def extractUris (xs : List JVal) : List JVal :=
  (xs.map (fun t => (jGet t "uri").getD JVal.null)).filter jsTruthyV

/-- `items.map(i => i?.track?.uri).filter(Boolean)` for saved tracks. -/
def extractSavedUris (xs : List JVal) : List JVal :=
  (xs.map (fun i => ((jGet i "track").bind (fun t => jGet t "uri")).getD
    JVal.null)).filter jsTruthyV

/-- `ids.join(',')`. -/
def joinIds (ids : List JVal) : String :=
  String.intercalate "," (ids.map jsToString)

/-- The `tryRecommendations(seedParams)` closure of `getRecommendedTracks`
(part_002 lines 238-253): build the target params, overlay the truthy
seed params, query `/recommendations`, and return the extracted URI list
when the response has a non-empty `tracks` array — `none` on any error
or on an empty/malformed response. -/
def tryRecommendations (env : Env) (token : Option String)
    (targets : List (String × String)) (seedParams : List (String × String))
    (s : St) : Option (List JVal) × St :=
  let ps := seedParams.foldl
    (fun ps p => if p.2 ≠ "" then paramsSet ps p.1 p.2 else ps)
    (buildRecommendationParams targets 25)
  let url := "/recommendations?" ++ paramsToString ps
  match spotifyFetch env url token {} 0 s with
  | (.error _, s') => (none, s')
  | (.ok d, s') =>
    match jGet d "tracks" with
    | some (.arr ts) =>
      if ts.isEmpty then (none, s') else (some (extractUris ts), s')
    | _ => (none, s')

/-- Steps 1b, 2a, 2b and the static fallback of `getRecommendedTracks`
(part_002 lines 261-299), split out so the early `return res` of step 1a
reads as a plain `match` above. -/
def getRecommendedTracksTail (env : Env) (token : Option String)
    (targets : List (String × String)) (s : St) :
    Except String (List JVal) × St :=
  -- 1b) recommendations seeded by the user's top tracks (whole block
  -- inside a try/catch, so any error only advances the chain)
  let (res1b, s3) :=
    match spotifyFetch env "/me/top/tracks?limit=5" token {} 0 s with
    | (.error _, s') => (none, s')
    | (.ok v, s') =>
      match jGet v "items" with
      | some (.arr items) =>
        if items.isEmpty then (none, s')
        else
          let ids := (extractIds items).take 5
          if ids.isEmpty then (none, s')
          else
            match tryRecommendations env token targets
                [("seed_tracks", joinIds ids)] s' with
            | (some us, s'') =>
              if us.isEmpty then (none, s'') else (some us, s'')
            | (none, s'') => (none, s'')
      | _ => (none, s')
  match res1b with
  | some us => (.ok us, s3)
  | none =>
    -- 2a) the user's top tracks directly (note: a non-empty `items`
    -- returns even when every mapped URI is filtered out)
    let (res2a, s4) :=
      match spotifyFetch env "/me/top/tracks?limit=25" token {} 0 s3 with
      | (.error _, s') => (none, s')
      | (.ok v, s') =>
        match jGet v "items" with
        | some (.arr items) =>
          if items.isEmpty then (none, s') else (some (extractUris items), s')
        | _ => (none, s')
    match res2a with
    | some us => (.ok us, s4)
    | none =>
      -- 2b) the user's saved tracks
      let (res2b, s5) :=
        match spotifyFetch env "/me/tracks?limit=25" token {} 0 s4 with
        | (.error _, s') => (none, s')
        | (.ok v, s') =>
          match jGet v "items" with
          | some (.arr items) =>
            if items.isEmpty then (none, s')
            else (some (extractSavedUris items), s')
          | _ => (none, s')
      match res2b with
      | some us => (.ok us, s5)
      | none =>
        -- 3) final fallback: the built-in static list
        (.ok (STATIC_FALLBACK_URIS.take 25), s5)

/-- `getRecommendedTracks(token, mood)` (part_002 lines 221-300): mood
validation, then the layered fallback chain — artist-seeded
recommendations, track-seeded recommendations, the user's top tracks,
the user's saved tracks, and finally `STATIC_FALLBACK_URIS.slice(0, 25)`.
Every sourcing attempt is wrapped so its failure only advances the
chain. -/
def getRecommendedTracks (env : Env) (token : Option String) (mood : String)
    (s : St) : Except String (List JVal) × St :=
  if mood = "" then (.error "Mood required.", s)
  else
    match moodMap (strToLower mood) with
    | none => (.error ("Invalid mood: " ++ mood), s)
    | some targets =>
      -- 1) gather user's top artists (non-fatal)
      let (r1, s1) := spotifyFetch env "/me/top/artists?limit=5" token {} 0 s
      let topArtistIds : List JVal :=
        match r1 with
        | .ok v =>
          match jGet v "items" with
          | some (.arr items) =>
            if items.isEmpty then [] else (extractIds items).take 5
          | _ => []
        | .error _ => []
      -- 1a) recommendations seeded by top artists
      let (res1a, s2) :=
        if ¬ topArtistIds.isEmpty then
          tryRecommendations env token targets
            [("seed_artists", joinIds topArtistIds)] s1
        else (none, s1)
      match res1a with
      | some us =>
        if ¬ us.isEmpty then (.ok us, s2)
        else
          -- fall through exactly as the source's length check does
          getRecommendedTracksTail env token targets s2
      | none => getRecommendedTracksTail env token targets s2

/-- The result of `createNewPlaylist`: the playlist id and
`external_urls?.spotify ?? null` (absent modelled as `none`). -/
structure CreatedPlaylist where
  id : JVal
  url : Option JVal

/-- `createNewPlaylist(token, userId, mood, isPublic)` (part_002 lines
304-311): POST `/me/playlists` with the deterministic name, description
and visibility; fail unless the response carries a truthy `id`. -/
def createNewPlaylist (env : Env) (token : Option String) (userId : JVal)
    (mood : String) (isPublic : Bool) (s : St) :
    Except String CreatedPlaylist × St :=
  let moodTitle := if mood ≠ "" then jsCapitalize mood else "Custom"
  let bodyObj : JVal := .obj
    [("name", .str ("MoodPlayl.ist: " ++ moodTitle ++ " Vibe")),
     ("description", .str "Generated by MoodPlayl.ist"),
     ("public", .bool isPublic)]
  match spotifyFetch env "/me/playlists" token
      { method := "POST", body := some bodyObj } 0 s with
  | (.error e, s') => (.error e, s')
  | (.ok pl, s') =>
    if ¬ (jsTruthyV pl ∧ jsTruthyV ((jGet pl "id").getD JVal.null)) then
      (.error "Failed to create playlist.", s')
    else
      (.ok ⟨(jGet pl "id").getD JVal.null,
            (jGet pl "external_urls").bind (fun e => jGet e "spotify")⟩, s')

/-- A `trackUris` argument as `addTracksToPlaylist` receives it: either a
JS array of values or some non-array value. -/
inductive JSArr where
  | arr (xs : List JVal) : JSArr
  | notArray : JSArr

/-- The chunked insertion loop of `addTracksToPlaylist` (part_002 lines
320-324): `for (let i = 0; i < trackUris.length; i += chunkSize)` with
`chunkSize = 100` and `chunk = trackUris.slice(i, i + 100)`, rendered as
take-100 / drop-100 recursion.  The fuel is the initial list length;
each round consumes at least one element, so the out-of-fuel branch is
unreachable from `addTracksToPlaylist` below. -/
def addTracksLoopF : Nat → Env → Option String → String → List JVal → St →
    Except String Unit × St
  | fuel, env, token, cleanedId, uris, s =>
    if uris.isEmpty then (.ok (), s)
    else
      match fuel with
      | 0 => (.error "model: out of loop fuel", s)
      | fuel' + 1 =>
        let chunk := uris.take 100
        match spotifyFetch env ("/playlists/" ++ cleanedId ++ "/tracks") token
            { method := "POST", body := some (.obj [("uris", .arr chunk)]) }
            0 s with
        | (.error e, s') => (.error e, s')
        | (.ok _, s') =>
          addTracksLoopF fuel' env token cleanedId (uris.drop 100) s'

/-- `addTracksToPlaylist(token, playlistId, trackUris)` (part_002 lines
313-325): a falsy playlist id throws; a non-array or empty `trackUris`
returns immediately; a `spotify:playlist:...` URI is reduced to its id;
then the URIs are POSTed in sequential chunks of 100, the first failing
chunk aborting the rest.  (`encodeURIComponent` is modelled as the
identity: every id in play is unreserved.) -/
def addTracksToPlaylist (env : Env) (token : Option String)
    (playlistId : JVal) (trackUris : JSArr) (s : St) :
    Except String Unit × St :=
  if ¬ jsTruthyV playlistId then (.error "playlistId required.", s)
  else
    match trackUris with
    | .notArray => (.ok (), s)
    | .arr uris =>
      if uris.isEmpty then (.ok (), s)
      else
        let idVal : JVal :=
          match playlistId with
          | .str s0 =>
            if strStartsWith s0 "spotify:playlist:" then
              .str (((strSplitOnChar ':' s0).getLast?).getD "")
            else .str s0
          | v => v
        let cleanedId := jsToString idVal
        addTracksLoopF uris.length env token cleanedId uris s

/-- `generatePlaylist`'s success value: name, external URL (if any) and
track count. -/
structure PlaylistResult where
  name : String
  url : Option JVal
  tracks : Nat

/-- `generatePlaylist(token, mood, makePublic)` (part_002 lines 327-341):
validate the session via `/me` (this network call happens first, before
any mood handling), source tracks through the fallback chain, fail if
the sourced list is empty, create the playlist, add the tracks, and
return the deterministic result record. -/
def generatePlaylist (env : Env) (token : Option String) (mood : String)
    (makePublic : Bool) (s : St) : Except String PlaylistResult × St :=
  match spotifyFetch env "/me" token {} 0 s with
  | (.error e, s') => (.error e, s')
  | (.ok me, s1) =>
    if ¬ (jsTruthyV me ∧ jsTruthyV ((jGet me "id").getD JVal.null)) then
      (.error "Unable to fetch user profile.", s1)
    else
      match getRecommendedTracks env token mood s1 with
      | (.error e, s2) => (.error e, s2)
      | (.ok uris, s2) =>
        if uris.isEmpty then (.error "No tracks available to add.", s2)
        else
          match createNewPlaylist env token ((jGet me "id").getD JVal.null)
              mood makePublic s2 with
          | (.error e, s3) => (.error e, s3)
          | (.ok pl, s3) =>
            match addTracksToPlaylist env token pl.id (.arr uris) s3 with
            | (.error e, s4) => (.error e, s4)
            | (.ok _, s4) =>
              (.ok ⟨"MoodPlayl.ist: " ++ jsCapitalize mood ++ " Vibe",
                    pl.url, uris.length⟩, s4)

/-! ### Helper lemmas about the embedded operations -/

/-- The state after one API dispatch from `s`: the call counter advances
and the dispatch event is recorded; nothing else changes. -/
def afterDispatch (s : St) (url : String) (opts : Opts) (t : String) : St :=
  { s with apiCount := s.apiCount + 1,
           events := s.events ++
             [Event.dispatch (buildFullUrl url) opts.method t opts.body] }

/-- `refreshAccessToken` records its entry as the first new event: every
outcome's trace extends the caller's trace with `refreshCall` first. -/
theorem refreshAccessToken_events_shape (env : Env) (s : St) :
    ∃ l, (refreshAccessToken env s).2.events =
      s.events ++ Event.refreshCall :: l := by
  unfold refreshAccessToken
  by_cases h : jsTruthyStr s.store.refresh_token
  · cases henv : env.tok s.tokCount with
    | net => exact ⟨[Event.tokenRequest], by simp [h, henv]⟩
    | resp ok accTok rt2 ei errText =>
      by_cases hok : ok
      · by_cases hacc : jsTruthyStr accTok
        · exact ⟨[Event.tokenRequest], by simp [h, henv, hok, hacc]⟩
        · exact ⟨[Event.tokenRequest], by simp [h, henv, hok, hacc]⟩
      · exact ⟨[Event.tokenRequest], by simp [h, henv, hok]⟩
  · exact ⟨[], by simp [h]⟩

/-- `refreshAccessToken` only appends to the event trace. -/
theorem refreshAccessToken_events_mono (env : Env) (s : St) :
    ∃ l, (refreshAccessToken env s).2.events = s.events ++ l := by
  obtain ⟨l, hl⟩ := refreshAccessToken_events_shape env s
  exact ⟨Event.refreshCall :: l, hl⟩

/-- `resolveToken` only appends to the event trace. -/
theorem resolveToken_events_mono (env : Env) (token : Option String)
    (s : St) : ∃ l, (resolveToken env token s).2.events = s.events ++ l := by
  unfold resolveToken
  by_cases h : jsTruthyStr
    (match token with
     | some t => if t = "" then s.store.access_token else some t
     | none => s.store.access_token) = true
  · exact ⟨[], by simp [h]⟩
  · obtain ⟨l0, hl0⟩ := refreshAccessToken_events_mono env s
    rcases href : refreshAccessToken env s with ⟨rr, s4⟩
    rw [href] at hl0
    simp only [] at hl0
    cases rr with
    | ok t => exact ⟨l0, by simp [h, href, hl0]⟩
    | error e => exact ⟨l0, by simp [h, href, hl0]⟩

/-- `expiryRefresh` only appends to the event trace. -/
theorem expiryRefresh_events_mono (env : Env) (currentTok : String)
    (s1 : St) :
    ∃ l, (expiryRefresh env currentTok s1).2.events = s1.events ++ l := by
  unfold expiryRefresh
  by_cases h : (match s1.store.token_expiry with
    | some e => decide (s1.now > e - 5000)
    | none => false) = true
  · obtain ⟨l0, hl0⟩ := refreshAccessToken_events_mono env s1
    rcases href : refreshAccessToken env s1 with ⟨rr, s4⟩
    rw [href] at hl0
    simp only [] at hl0
    cases rr with
    | ok t => exact ⟨l0, by simp [h, href, hl0]⟩
    | error e => exact ⟨l0, by simp [h, href, hl0]⟩
  · exact ⟨[], by simp [h]⟩

/-- `dispatchAndClassify` only appends to the event trace, provided its
retry continuation does. -/
theorem dispatchAndClassify_events_mono (env : Env) (url : String)
    (opts : Opts) (retries : Nat)
    (retry : String → St → Except String JVal × St)
    (hretry : ∀ t s, ∃ l, (retry t s).2.events = s.events ++ l)
    (tok2 : String) (s2 : St) :
    ∃ l, (dispatchAndClassify env url opts retries retry tok2 s2).2.events =
      s2.events ++ l := by
  unfold dispatchAndClassify
  cases hout : env.api s2.apiCount with
  | net =>
    exact ⟨[Event.dispatch (buildFullUrl url) opts.method tok2 opts.body],
      by simp [hout]⟩
  | resp r =>
    simp only [hout]
    by_cases h401 : r.status = 401 ∧ retries = 0
    · rcases href : refreshAccessToken env
        { s2 with apiCount := s2.apiCount + 1,
                  events := s2.events ++
                    [Event.dispatch (buildFullUrl url) opts.method tok2
                      opts.body] }
        with ⟨rr, s4⟩
      obtain ⟨l0, hl0⟩ := refreshAccessToken_events_mono env
        { s2 with apiCount := s2.apiCount + 1,
                  events := s2.events ++
                    [Event.dispatch (buildFullUrl url) opts.method tok2
                      opts.body] }
      rw [href] at hl0
      simp only [] at hl0
      cases rr with
      | ok newTok =>
        obtain ⟨l1, hl1⟩ := hretry newTok s4
        refine ⟨Event.dispatch (buildFullUrl url) opts.method tok2 opts.body ::
          (l0 ++ l1), ?_⟩
        simp [h401, href, hl1, hl0, List.append_assoc]
      | error e =>
        refine ⟨Event.dispatch (buildFullUrl url) opts.method tok2 opts.body ::
          l0, ?_⟩
        simp [h401, href, hl0, List.append_assoc]
    · refine ⟨Event.dispatch (buildFullUrl url) opts.method tok2 opts.body ::
        [], ?_⟩
      by_cases h204 : r.status = 204
      · simp [h401, h204]
      · by_cases hok2 : 200 ≤ r.status ∧ r.status < 300
        · rcases hbj : r.bodyJson with _ | j
          · rcases hbt : r.bodyText with _ | t
            · simp [h401, h204, hok2, hbj, hbt]
            · by_cases hte : t ≠ ""
              · simp [h401, h204, hok2, hbj, hbt, hte]
              · simp [h401, h204, hok2, hbj, hbt, hte]
          · simp [h401, h204, hok2, hbj]
        · by_cases h403 : r.status = 403
          · simp [h401, h204, hok2, h403]
          · by_cases h404 : r.status = 404
            · simp [h401, h204, hok2, h403, h404]
            · simp [h401, h204, hok2, h403, h404]

/-- `spotifyFetchF` only appends to the event trace. -/
theorem spotifyFetchF_events_mono (fuel : Nat) :
    ∀ env url token opts retries s,
      ∃ l, (spotifyFetchF fuel env url token opts retries s).2.events =
        s.events ++ l := by
  induction fuel with
  | zero =>
    intro env url token opts retries s
    unfold spotifyFetchF
    obtain ⟨l0, hl0⟩ := resolveToken_events_mono env token s
    rcases hres : resolveToken env token s with ⟨rr, s1⟩
    rw [hres] at hl0
    simp only [] at hl0
    cases rr with
    | error e => exact ⟨l0, by simp [hres, hl0]⟩
    | ok currentTok =>
      obtain ⟨l1, hl1⟩ := expiryRefresh_events_mono env currentTok s1
      rcases hexp : expiryRefresh env currentTok s1 with ⟨re, s2⟩
      rw [hexp] at hl1
      simp only [] at hl1
      cases re with
      | error e => exact ⟨l0 ++ l1, by simp [hres, hexp, hl0, hl1]⟩
      | ok tok2 =>
        obtain ⟨l2, hl2⟩ := dispatchAndClassify_events_mono env url opts
          retries
          (fun newTok s4 => (Except.error "model: out of retry fuel", s4))
          (fun t s => ⟨[], by simp⟩) tok2 s2
        exact ⟨l0 ++ (l1 ++ l2), by simp [hres, hexp, hl0, hl1, hl2]⟩
  | succ fuel ih =>
    intro env url token opts retries s
    unfold spotifyFetchF
    obtain ⟨l0, hl0⟩ := resolveToken_events_mono env token s
    rcases hres : resolveToken env token s with ⟨rr, s1⟩
    rw [hres] at hl0
    simp only [] at hl0
    cases rr with
    | error e => exact ⟨l0, by simp [hres, hl0]⟩
    | ok currentTok =>
      obtain ⟨l1, hl1⟩ := expiryRefresh_events_mono env currentTok s1
      rcases hexp : expiryRefresh env currentTok s1 with ⟨re, s2⟩
      rw [hexp] at hl1
      simp only [] at hl1
      cases re with
      | error e => exact ⟨l0 ++ l1, by simp [hres, hexp, hl0, hl1]⟩
      | ok tok2 =>
        obtain ⟨l2, hl2⟩ := dispatchAndClassify_events_mono env url opts
          retries
          (fun newTok s4 =>
            spotifyFetchF fuel env url (some newTok) opts (retries + 1) s4)
          (fun t s => ih env url (some t) opts (retries + 1) s) tok2 s2
        exact ⟨l0 ++ (l1 ++ l2), by simp [hres, hexp, hl0, hl1, hl2]⟩

/-- `spotifyFetch` only appends to the event trace. -/
theorem spotifyFetch_events_mono (env : Env) (url : String)
    (token : Option String) (opts : Opts) (retries : Nat) (s : St) :
    ∃ l, (spotifyFetch env url token opts retries s).2.events =
      s.events ++ l :=
  spotifyFetchF_events_mono 2 env url token opts retries s

/-- A provided non-empty token resolves to itself and touches nothing. -/
theorem resolveToken_provided (env : Env) (t : String) (s : St)
    (ht : t ≠ "") : resolveToken env (some t) s = (.ok t, s) := by
  simp [resolveToken, jsTruthyStr, ht]

/-- With no stored expiry the proactive-refresh step is a no-op. -/
theorem expiryRefresh_noExpiry (env : Env) (ct : String) (s1 : St)
    (he : s1.store.token_expiry = none) :
    expiryRefresh env ct s1 = (.ok ct, s1) := by
  simp [expiryRefresh, he]

/-- With a stored expiry that is not within the 5-second margin
(`¬ (now > E - 5000)`) the proactive-refresh step is a no-op. -/
theorem expiryRefresh_fresh (env : Env) (ct : String) (s1 : St) (e : Int)
    (he : s1.store.token_expiry = some e) (hf : ¬ s1.now > e - 5000) :
    expiryRefresh env ct s1 = (.ok ct, s1) := by
  simp [expiryRefresh, he, hf]

/-- Unfolding `spotifyFetchF` at positive fuel when a non-empty token is
provided and no stored expiry forces a refresh: the call is exactly its
dispatch-and-classify stage. -/
theorem spotifyFetchF_ready (fuel : Nat) (env : Env) (url : String)
    (t : String) (opts : Opts) (retries : Nat) (s : St) (ht : t ≠ "")
    (hexp : expiryRefresh env t s = (.ok t, s)) :
    spotifyFetchF (fuel + 1) env url (some t) opts retries s =
      dispatchAndClassify env url opts retries
        (fun newTok s4 =>
          spotifyFetchF fuel env url (some newTok) opts (retries + 1) s4)
        t s := by
  conv_lhs => rw [spotifyFetchF]
  rw [resolveToken_provided env t s ht]
  dsimp only
  rw [hexp]

/-- The state after one API dispatch agrees with `afterDispatch`. -/
theorem dispatchAndClassify_net (env : Env) (url : String) (opts : Opts)
    (retries : Nat) (retry : String → St → Except String JVal × St)
    (tok2 : String) (s2 : St) (hout : env.api s2.apiCount = .net) :
    dispatchAndClassify env url opts retries retry tok2 s2 =
      (.error "Network error while contacting Spotify API.",
       afterDispatch s2 url opts tok2) := by
  simp [dispatchAndClassify, hout, afterDispatch]

/-- A 2xx (non-204, non-401-retry) response returns its parsed JSON
body. -/
theorem dispatchAndClassify_ok (env : Env) (url : String) (opts : Opts)
    (retries : Nat) (retry : String → St → Except String JVal × St)
    (tok2 : String) (s2 : St) (r : HttpResp) (j : JVal)
    (hout : env.api s2.apiCount = .resp r)
    (h401 : ¬ (r.status = 401 ∧ retries = 0)) (h204 : r.status ≠ 204)
    (h2xx : 200 ≤ r.status ∧ r.status < 300) (hbj : r.bodyJson = some j) :
    dispatchAndClassify env url opts retries retry tok2 s2 =
      (.ok j, afterDispatch s2 url opts tok2) := by
  simp [dispatchAndClassify, hout, h401, h204, h2xx, hbj, afterDispatch]

/-- A non-2xx status other than 401-with-retries-left, 403 and 404
surfaces the generic upstream error with the extracted message. -/
theorem dispatchAndClassify_err (env : Env) (url : String) (opts : Opts)
    (retries : Nat) (retry : String → St → Except String JVal × St)
    (tok2 : String) (s2 : St) (r : HttpResp)
    (hout : env.api s2.apiCount = .resp r)
    (h401 : ¬ (r.status = 401 ∧ retries = 0)) (h204 : r.status ≠ 204)
    (h2xx : ¬ (200 ≤ r.status ∧ r.status < 300)) (h403 : r.status ≠ 403)
    (h404 : r.status ≠ 404) :
    dispatchAndClassify env url opts retries retry tok2 s2 =
      (.error ("Spotify API Error " ++ toString r.status ++ ": " ++
        respErrMsg r), afterDispatch s2 url opts tok2) := by
  simp [dispatchAndClassify, hout, h401, h204, h2xx, h403, h404, afterDispatch]

/-- A 401 on the first attempt whose refresh succeeds re-enters the
retry continuation with the refreshed token. -/
theorem dispatchAndClassify_401_refresh_ok (env : Env) (url : String)
    (opts : Opts) (retry : String → St → Except String JVal × St)
    (tok2 : String) (s2 : St) (r : HttpResp) (newTok : String) (s4 : St)
    (hout : env.api s2.apiCount = .resp r) (hst : r.status = 401)
    (href : refreshAccessToken env (afterDispatch s2 url opts tok2) =
      (.ok newTok, s4)) :
    dispatchAndClassify env url opts 0 retry tok2 s2 = retry newTok s4 := by
  unfold dispatchAndClassify
  rw [hout]
  simp only [hst, afterDispatch] at href ⊢
  simp [href]

/-- Truthiness of a present string. -/
theorem jsTruthyStr_some (x : String) : jsTruthyStr (some x) = (x != "") :=
  rfl

/-- Truthiness of an absent string. -/
theorem jsTruthyStr_none : jsTruthyStr none = false := rfl

/-- The credential store after a successful refresh: new access token,
the rotated refresh token when one was issued, and the recomputed
expiry. -/
def refreshedStore (st : Store) (a : String) (rt2 : Option String)
    (expiry : Int) : Store :=
  { st with access_token := some a,
            refresh_token := if jsTruthyStr rt2 then rt2 else st.refresh_token,
            token_expiry := some expiry }

/-- A successful `refreshAccessToken`: requires a truthy stored refresh
token and an ok token-endpoint response with a truthy access token;
returns the new token, stores it, and records `refreshCall` then
`tokenRequest`. -/
theorem refreshAccessToken_ok (env : Env) (s : St) (t2 : String)
    (rt2 : Option String) (ei : ExpiresIn) (et : String)
    (hrt : jsTruthyStr s.store.refresh_token = true)
    (htok : env.tok s.tokCount = .resp true (some t2) rt2 ei et)
    (ht2 : t2 ≠ "") :
    refreshAccessToken env s =
      (.ok t2,
       { s with
         store := refreshedStore s.store t2 rt2
           (s.now + (lifetimeOf ei : Int) * 1000),
         tokCount := s.tokCount + 1,
         events := s.events ++ [Event.refreshCall, Event.tokenRequest] }) := by
  unfold refreshAccessToken
  dsimp only
  by_cases hrt2 : jsTruthyStr rt2 = true
  · simp [hrt, htok, ht2, hrt2, jsTruthyStr_some, refreshedStore]
  · simp [hrt, htok, ht2, hrt2, jsTruthyStr_some, refreshedStore]

/-- A 200 response with a JSON body, reached with a provided token and
no stored expiry, returns the parsed body and performs exactly one
dispatch. -/
theorem spotifyFetch_ok200 (env : Env) (url : String) (t : String)
    (opts : Opts) (s : St) (stx : String) (bt : Option String) (j : JVal)
    (ht : t ≠ "") (he : s.store.token_expiry = none)
    (ha : env.api s.apiCount = .resp ⟨200, stx, bt, some j⟩) :
    spotifyFetch env url (some t) opts 0 s =
      (.ok j, afterDispatch s url opts t) := by
  unfold spotifyFetch
  rw [show (2 : Nat) = 1 + 1 from rfl,
    spotifyFetchF_ready 1 env url t opts 0 s ht
      (expiryRefresh_noExpiry env t s he)]
  exact dispatchAndClassify_ok env url opts 0 _ t s _ j ha (by simp)
    (by simp) (by simp) rfl

/-- A transport failure, reached with a provided token and no stored
expiry, fails with the network message after its single dispatch. -/
theorem spotifyFetch_net (env : Env) (url : String) (t : String)
    (opts : Opts) (s : St) (ht : t ≠ "")
    (he : s.store.token_expiry = none)
    (ha : env.api s.apiCount = .net) :
    spotifyFetch env url (some t) opts 0 s =
      (.error "Network error while contacting Spotify API.",
       afterDispatch s url opts t) := by
  unfold spotifyFetch
  rw [show (2 : Nat) = 1 + 1 from rfl,
    spotifyFetchF_ready 1 env url t opts 0 s ht
      (expiryRefresh_noExpiry env t s he)]
  exact dispatchAndClassify_net env url opts 0 _ t s ha

/-- A non-2xx status other than 401/403/404, reached with a provided
token and no stored expiry, surfaces the generic upstream error after
its single dispatch. -/
theorem spotifyFetch_err (env : Env) (url : String) (t : String)
    (opts : Opts) (s : St) (r : HttpResp) (ht : t ≠ "")
    (he : s.store.token_expiry = none)
    (ha : env.api s.apiCount = .resp r) (h401 : r.status ≠ 401)
    (h204 : r.status ≠ 204) (h2xx : ¬ (200 ≤ r.status ∧ r.status < 300))
    (h403 : r.status ≠ 403) (h404 : r.status ≠ 404) :
    spotifyFetch env url (some t) opts 0 s =
      (.error ("Spotify API Error " ++ toString r.status ++ ": " ++
        respErrMsg r), afterDispatch s url opts t) := by
  unfold spotifyFetch
  rw [show (2 : Nat) = 1 + 1 from rfl,
    spotifyFetchF_ready 1 env url t opts 0 s ht
      (expiryRefresh_noExpiry env t s he)]
  exact dispatchAndClassify_err env url opts 0 _ t s r ha (by simp [h401])
    h204 h2xx h403 h404

/-! ### Claim C1 — single retry bound on 401 -/

/-- C1: through the request executor `spotifyFetch`, a 401 response
triggers exactly one re-dispatch of the same request (same URL, method
and body) with a freshly refreshed token; when the re-dispatched request
also answers 401, that second 401 surfaces as an error to the caller and
is never retried: the run performs exactly two dispatches, with a single
refresh between them. -/
theorem claim_C1_single_retry (env : Env) (url : String) (opts : Opts)
    (s : St) (t rt t2 : String) (rt2 : Option String) (ei : ExpiresIn)
    (et : String) (r1 r2 : HttpResp)
    (ht : t ≠ "") (he : s.store.token_expiry = none)
    (ha1 : env.api s.apiCount = .resp r1) (h1 : r1.status = 401)
    (hrt : s.store.refresh_token = some rt) (hrtne : rt ≠ "")
    (htok : env.tok s.tokCount = .resp true (some t2) rt2 ei et)
    (ht2 : t2 ≠ "")
    (hfresh : ¬ s.now > s.now + (lifetimeOf ei : Int) * 1000 - 5000)
    (ha2 : env.api (s.apiCount + 1) = .resp r2) (h2 : r2.status = 401) :
    spotifyFetch env url (some t) opts 0 s =
      (.error ("Spotify API Error 401: " ++ respErrMsg r2),
       { s with
         store := refreshedStore s.store t2 rt2
           (s.now + (lifetimeOf ei : Int) * 1000),
         apiCount := s.apiCount + 2,
         tokCount := s.tokCount + 1,
         events := s.events ++
           [Event.dispatch (buildFullUrl url) opts.method t opts.body,
            Event.refreshCall, Event.tokenRequest,
            Event.dispatch (buildFullUrl url) opts.method t2 opts.body] }) := by
  unfold spotifyFetch
  rw [show (2 : Nat) = 1 + 1 from rfl,
    spotifyFetchF_ready 1 env url t opts 0 s ht
      (expiryRefresh_noExpiry env t s he)]
  have href := refreshAccessToken_ok env (afterDispatch s url opts t) t2 rt2
    ei et (by simp [afterDispatch, hrt, jsTruthyStr_some, hrtne])
    (by simpa [afterDispatch] using htok) ht2
  rw [dispatchAndClassify_401_refresh_ok env url opts _ t s r1 t2 _ ha1 h1
    href]
  rw [show (1 : Nat) = 0 + 1 from rfl,
    spotifyFetchF_ready 0 env url t2 opts (0 + 1) _ ht2
      (expiryRefresh_fresh env t2 _
        (s.now + (lifetimeOf ei : Int) * 1000)
        (by simp [afterDispatch, refreshedStore])
        (by simpa [afterDispatch] using hfresh))]
  rw [dispatchAndClassify_err env url opts (0 + 1) _ t2 _ r2
    (by simpa [afterDispatch] using ha2) (by simp) (by simp [h2])
    (by simp [h2]) (by simp [h2]) (by simp [h2])]
  simp only [afterDispatch, h2, refreshedStore]
  rw [show (("Spotify API Error " ++ toString (401 : Nat) ++ ": ") : String)
    = "Spotify API Error 401: " from rfl]
  simp [afterDispatch, refreshedStore]

/-- Environment for the C1 witness: the API always answers 401, the
token endpoint always refreshes successfully. -/
def envC1 : Env :=
  ⟨fun _ => .resp ⟨401, "Unauthorized", some "nope", none⟩,
   fun _ => .resp true (some "T2") none (.num 3600) ""⟩

/-- Starting state for the C1 witness. -/
def stC1 : St := { store := { refresh_token := some "RT" }, now := 50 }

/-- C1 witness: the concrete 401-refresh-401 run surfaces the second 401
as an error after exactly two dispatches. -/
theorem claim_C1_single_retry_witness :
    spotifyFetch envC1 "/me" (some "TOK") {} 0 stC1 =
      (.error "Spotify API Error 401: nope",
       { store := { refresh_token := some "RT", access_token := some "T2",
                    token_expiry := some 3600050 },
         now := 50, apiCount := 2, tokCount := 1,
         events :=
           [Event.dispatch "https://api.spotify.com/v1/me" "GET" "TOK" none,
            Event.refreshCall, Event.tokenRequest,
            Event.dispatch "https://api.spotify.com/v1/me" "GET" "T2"
              none] }) := by
  have h := claim_C1_single_retry envC1 "/me" {} stC1 "TOK" "RT" "T2" none
    (.num 3600) "" ⟨401, "Unauthorized", some "nope", none⟩
    ⟨401, "Unauthorized", some "nope", none⟩
    (by decide) rfl rfl rfl rfl (by decide) rfl (by decide) (by decide)
    rfl rfl
  exact h

/-! ### Claim C2 — token-freshness margin -/

/-- Does an event record a refresh attempt? -/
def isRefreshCall : Event → Bool
  | .refreshCall => true
  | _ => false

/-- Environment for the C2 counterexample: the API answers 200. -/
def envC2 : Env :=
  ⟨fun _ => .resp ⟨200, "OK", some "x", some (.obj [("id", .str "u")])⟩,
   fun _ => .net⟩

/-- State for the C2 counterexample: stored expiry 10000, current time
exactly `E - 5000`. -/
def stC2 : St :=
  { store := { access_token := some "A", token_expiry := some 10000 },
    now := 5000 }

/-- C2 counterexample: at the boundary `now = E − 5000` (which satisfies
the claim's `now ≥ E − 5000`), the call dispatches without any refresh
attempt — the code's test is strict (`now > E − 5000`), so the claim as
stated is false at the boundary. -/
theorem claim_C2_counterexample :
    stC2.store.token_expiry = some 10000 ∧
    stC2.now ≥ 10000 - 5000 ∧
    ((spotifyFetch envC2 "/me" (some "TOK") {} 0 stC2).2.events).countP
      (fun e => isRefreshCall e) = 0 ∧
    (spotifyFetch envC2 "/me" (some "TOK") {} 0 stC2).2.apiCount = 1 := by
  refine ⟨rfl, by decide, ?_, rfl⟩
  rfl

/-- C2 (amended): whenever an expiry `E` is stored and the call is made
strictly inside the safety margin (`now > E − 5000`), a refresh attempt
is recorded before the primary request is dispatched — the very first
event of the run is `refreshCall`. -/
theorem claim_C2_amended (env : Env) (url : String) (opts : Opts) (s : St)
    (t : String) (E : Int) (ht : t ≠ "")
    (he : s.store.token_expiry = some E) (hnow : s.now > E - 5000)
    (hev : s.events = []) :
    ∃ l, (spotifyFetch env url (some t) opts 0 s).2.events =
      Event.refreshCall :: l := by
  unfold spotifyFetch
  rw [spotifyFetchF]
  rw [resolveToken_provided env t s ht]
  dsimp only
  obtain ⟨l0, hl0⟩ := refreshAccessToken_events_shape env s
  rcases href : refreshAccessToken env s with ⟨rr, s'⟩
  rw [href] at hl0
  simp only [] at hl0
  rw [hev] at hl0
  simp only [List.nil_append] at hl0
  cases rr with
  | error e =>
    have hexp : expiryRefresh env t s =
        (.error "Session expired. Please log in again.",
         { s' with store := emptyStore }) := by
      unfold expiryRefresh
      rw [he]
      simp only [decide_eq_true_eq]
      rw [if_pos hnow, href]
    rw [hexp]
    exact ⟨l0, by simpa using hl0⟩
  | ok t' =>
    have hexp : expiryRefresh env t s = (.ok t', s') := by
      unfold expiryRefresh
      rw [he]
      simp only [decide_eq_true_eq]
      rw [if_pos hnow, href]
    rw [hexp]
    dsimp only
    obtain ⟨l2, hl2⟩ := dispatchAndClassify_events_mono env url opts 0
      (fun newTok s4 => spotifyFetchF 1 env url (some newTok) opts (0 + 1) s4)
      (fun a b => spotifyFetchF_events_mono 1 env url (some a) opts (0 + 1) b)
      t' s'
    exact ⟨l0 ++ l2, by rw [hl2, hl0]; simp⟩

/-- C2 amended witness: a concrete in-margin call whose first recorded
event is the refresh attempt. -/
theorem claim_C2_amended_witness :
    ∃ l, (spotifyFetch envC2 "/me" (some "TOK") {} 0
      { store := { access_token := some "A", token_expiry := some 10000 },
        now := 5001 }).2.events = Event.refreshCall :: l :=
  claim_C2_amended envC2 "/me" {} _ "TOK" 10000 (by decide) rfl (by decide)
    rfl

/-! ### Claim C3 — every enumerated auth failure wipes credentials -/

/-- C3: every enumerated failure path of `exchangeCodeForToken` (missing
verifier; state mismatch; non-success token-endpoint response; missing
access token in the response) and of `refreshAccessToken` (missing
refresh token; non-success response; missing access token) leaves the
credential store completely cleared while propagating an error. -/
theorem claim_C3_auth_failures_wipe :
    (∀ env code rs s, ¬ jsTruthyStr s.store.code_verifier = true →
      (exchangeCodeForToken env code rs s).2.store = emptyStore ∧
      ∃ m, (exchangeCodeForToken env code rs s).1 = .error m) ∧
    (∀ env code rs s, jsTruthyStr s.store.code_verifier = true →
      jsTruthyStr s.store.pkce_state = true → jsTruthyStr rs = true →
      s.store.pkce_state ≠ rs →
      (exchangeCodeForToken env code rs s).2.store = emptyStore ∧
      ∃ m, (exchangeCodeForToken env code rs s).1 = .error m) ∧
    (∀ env code rs s a rt2 ei et,
      jsTruthyStr s.store.code_verifier = true →
      ¬ (jsTruthyStr s.store.pkce_state = true ∧ jsTruthyStr rs = true ∧
        s.store.pkce_state ≠ rs) →
      env.tok s.tokCount = .resp false a rt2 ei et →
      (exchangeCodeForToken env code rs s).2.store = emptyStore ∧
      ∃ m, (exchangeCodeForToken env code rs s).1 = .error m) ∧
    (∀ env code rs s a rt2 ei et,
      jsTruthyStr s.store.code_verifier = true →
      ¬ (jsTruthyStr s.store.pkce_state = true ∧ jsTruthyStr rs = true ∧
        s.store.pkce_state ≠ rs) →
      env.tok s.tokCount = .resp true a rt2 ei et →
      ¬ jsTruthyStr a = true →
      (exchangeCodeForToken env code rs s).2.store = emptyStore ∧
      ∃ m, (exchangeCodeForToken env code rs s).1 = .error m) ∧
    (∀ env s, ¬ jsTruthyStr s.store.refresh_token = true →
      (refreshAccessToken env s).2.store = emptyStore ∧
      ∃ m, (refreshAccessToken env s).1 = .error m) ∧
    (∀ env s a rt2 ei et, jsTruthyStr s.store.refresh_token = true →
      env.tok s.tokCount = .resp false a rt2 ei et →
      (refreshAccessToken env s).2.store = emptyStore ∧
      ∃ m, (refreshAccessToken env s).1 = .error m) ∧
    (∀ env s a rt2 ei et, jsTruthyStr s.store.refresh_token = true →
      env.tok s.tokCount = .resp true a rt2 ei et →
      ¬ jsTruthyStr a = true →
      (refreshAccessToken env s).2.store = emptyStore ∧
      ∃ m, (refreshAccessToken env s).1 = .error m) := by
  refine ⟨?_, ?_, ?_, ?_, ?_, ?_, ?_⟩
  · intro env code rs s hcv
    unfold exchangeCodeForToken
    simp [hcv]
  · intro env code rs s hcv hst hrs hne
    unfold exchangeCodeForToken
    simp [hcv, hst, hrs, hne]
  · intro env code rs s a rt2 ei et hcv hnm htok
    unfold exchangeCodeForToken
    simp [hcv, hnm, htok]
  · intro env code rs s a rt2 ei et hcv hnm htok ha
    unfold exchangeCodeForToken
    simp [hcv, hnm, htok, ha]
  · intro env s hrt
    unfold refreshAccessToken
    simp [hrt]
  · intro env s a rt2 ei et hrt htok
    unfold refreshAccessToken
    simp [hrt, htok]
  · intro env s a rt2 ei et hrt htok ha
    unfold refreshAccessToken
    simp [hrt, htok, ha]

/-- Concrete states and environments for the C3 witness. -/
def stVerifier : St :=
  { store := { code_verifier := some "VER", pkce_state := some "B",
               access_token := some "A", refresh_token := some "R" },
    now := 3 }

/-- Token endpoint that rejects the exchange. -/
def envTokFail : Env := ⟨fun _ => .net, fun _ => .resp false none none .absent "bad"⟩

/-- Token endpoint that answers ok but without an access token. -/
def envTokNoAcc : Env := ⟨fun _ => .net, fun _ => .resp true none none .absent ""⟩

/-- C3 witness: each enumerated failure path, at a concrete input,
errors with the store wiped. -/
theorem claim_C3_auth_failures_wipe_witness :
    ((exchangeCodeForToken envTokFail "c" none { now := 3 }).2.store =
      emptyStore ∧
     (∃ m, (exchangeCodeForToken envTokFail "c" none { now := 3 }).1 =
      .error m)) ∧
    ((exchangeCodeForToken envTokFail "c" (some "A2") stVerifier).2.store =
      emptyStore ∧
     (∃ m, (exchangeCodeForToken envTokFail "c" (some "A2")
      stVerifier).1 = .error m)) ∧
    ((exchangeCodeForToken envTokFail "c" (some "B") stVerifier).2.store =
      emptyStore ∧
     (∃ m, (exchangeCodeForToken envTokFail "c" (some "B") stVerifier).1 =
      .error m)) ∧
    ((exchangeCodeForToken envTokNoAcc "c" (some "B") stVerifier).2.store =
      emptyStore ∧
     (∃ m, (exchangeCodeForToken envTokNoAcc "c" (some "B")
      stVerifier).1 = .error m)) ∧
    ((refreshAccessToken envTokFail { now := 3 }).2.store = emptyStore ∧
     (∃ m, (refreshAccessToken envTokFail { now := 3 }).1 = .error m)) ∧
    ((refreshAccessToken envTokFail stVerifier).2.store = emptyStore ∧
     (∃ m, (refreshAccessToken envTokFail stVerifier).1 = .error m)) ∧
    ((refreshAccessToken envTokNoAcc stVerifier).2.store = emptyStore ∧
     (∃ m, (refreshAccessToken envTokNoAcc stVerifier).1 = .error m)) := by
  obtain ⟨h1, h2, h3, h4, h5, h6, h7⟩ := claim_C3_auth_failures_wipe
  exact ⟨h1 envTokFail "c" none { now := 3 } (by decide),
         h2 envTokFail "c" (some "A2") stVerifier (by decide) (by decide)
           (by decide) (by decide),
         h3 envTokFail "c" (some "B") stVerifier none none .absent "bad"
           (by decide) (by decide) rfl,
         h4 envTokNoAcc "c" (some "B") stVerifier none none .absent ""
           (by decide) (by decide) rfl (by decide),
         h5 envTokFail { now := 3 } (by decide),
         h6 envTokFail stVerifier none none .absent "bad" (by decide) rfl,
         h7 envTokNoAcc stVerifier none none .absent "" (by decide) rfl
           (by decide)⟩

/-! ### Claim C4 — state mismatch rejection -/

/-- C4: with a stored verifier (as `beginLogin` always stores one
alongside the anti-forgery state) and a stored state `sB`, calling
`exchangeCodeForToken` with a different returned state `sA` fails with
the state-mismatch error, wipes every stored credential, and never
performs the token-endpoint exchange (the event trace is untouched). -/
theorem claim_C4_state_mismatch (env : Env) (code sA sB v : String)
    (s : St) (hv : s.store.code_verifier = some v) (hvne : v ≠ "")
    (hB : s.store.pkce_state = some sB) (hBne : sB ≠ "") (hAne : sA ≠ "")
    (hne : sA ≠ sB) :
    exchangeCodeForToken env code (some sA) s =
      (.error "State mismatch. Possible CSRF attack. Login again.",
       { s with store := emptyStore }) ∧
    (exchangeCodeForToken env code (some sA) s).2.events = s.events ∧
    (exchangeCodeForToken env code (some sA) s).2.tokCount = s.tokCount := by
  have hmain : exchangeCodeForToken env code (some sA) s =
      (.error "State mismatch. Possible CSRF attack. Login again.",
       { s with store := emptyStore }) := by
    unfold exchangeCodeForToken
    dsimp only
    rw [hv, hB]
    rw [if_neg (show ¬ (¬ jsTruthyStr (some v) = true) by
      simp [jsTruthyStr_some, hvne])]
    rw [if_pos (show jsTruthyStr (some sB) = true ∧
        jsTruthyStr (some sA) = true ∧ (some sB : Option String) ≠ some sA from
      ⟨by simp [jsTruthyStr_some, hBne], by simp [jsTruthyStr_some, hAne],
       by simp [Ne.symm hne]⟩)]
  exact ⟨hmain, by rw [hmain], by rw [hmain]⟩

/-- C4 witness: a concrete mismatched exchange is rejected with the
store wiped and no token-endpoint call. -/
theorem claim_C4_state_mismatch_witness :
    exchangeCodeForToken envTokFail "c" (some "A2") stVerifier =
      (.error "State mismatch. Possible CSRF attack. Login again.",
       { stVerifier with store := emptyStore }) ∧
    (exchangeCodeForToken envTokFail "c" (some "A2")
      stVerifier).2.events = stVerifier.events ∧
    (exchangeCodeForToken envTokFail "c" (some "A2")
      stVerifier).2.tokCount = stVerifier.tokCount :=
  claim_C4_state_mismatch envTokFail "c" "A2" "B" "VER" stVerifier rfl
    (by decide) rfl (by decide) (by decide) (by decide)

/-! ### Claim C9 — expiry computation and the 3600-second default -/

/-- Environment for the C9 counterexample: the token endpoint answers ok
with `expires_in: null`. -/
def envTokNull : Env :=
  ⟨fun _ => .net, fun _ => .resp true (some "AT") (some "RT") .null ""⟩

/-- State for the C9 counterexample: a stored verifier, time 1000. -/
def stC9 : St := { store := { code_verifier := some "VER" }, now := 1000 }

/-- C9 counterexample: a token response with `expires_in: null` does not
default the lifetime to 3600 seconds — JavaScript's `Number(null)` is a
finite `0`, so the stored expiry equals the current time (1000), not
`now + 3600 * 1000`.  The claim's "null defaults to 3600" is false. -/
theorem claim_C9_counterexample :
    (exchangeCodeForToken envTokNull "c" none stC9).1 = .ok "AT" ∧
    (exchangeCodeForToken envTokNull "c" none
      stC9).2.store.token_expiry = some 1000 ∧
    (1000 : Int) ≠ 1000 + 3600 * 1000 := by
  exact ⟨rfl, rfl, by decide⟩

/-- C9 (amended): on a successful exchange or refresh the stored expiry
is `now + lifetime * 1000`, where the lifetime is the JS numeric
coercion of `expires_in` when that coercion is finite and 3600 seconds
otherwise — so an absent `expires_in` or a non-numeric string defaults
to 3600, while JSON `null` coerces to a lifetime of 0 seconds. -/
theorem claim_C9_amended :
    (∀ env code rs s a rt2 ei et,
      jsTruthyStr s.store.code_verifier = true →
      ¬ (jsTruthyStr s.store.pkce_state = true ∧ jsTruthyStr rs = true ∧
        s.store.pkce_state ≠ rs) →
      env.tok s.tokCount = .resp true (some a) rt2 ei et → a ≠ "" →
      (exchangeCodeForToken env code rs s).2.store.token_expiry =
        some (s.now + (lifetimeOf ei : Int) * 1000)) ∧
    (∀ env s a rt2 ei et, jsTruthyStr s.store.refresh_token = true →
      env.tok s.tokCount = .resp true (some a) rt2 ei et → a ≠ "" →
      (refreshAccessToken env s).2.store.token_expiry =
        some (s.now + (lifetimeOf ei : Int) * 1000)) ∧
    lifetimeOf .absent = 3600 ∧ lifetimeOf .nanStr = 3600 ∧
    lifetimeOf .null = 0 ∧ (∀ n, lifetimeOf (.num n) = n) ∧
    (∀ n, lifetimeOf (.numStr n) = n) := by
  refine ⟨?_, ?_, rfl, rfl, rfl, fun n => rfl, fun n => rfl⟩
  · intro env code rs s a rt2 ei et hcv hnm htok ha
    unfold exchangeCodeForToken
    by_cases hrt2 : jsTruthyStr rt2 = true
    · simp [hcv, hnm, htok, ha, hrt2, jsTruthyStr_some]
    · simp [hcv, hnm, htok, ha, hrt2, jsTruthyStr_some]
  · intro env s a rt2 ei et hrt htok ha
    rw [refreshAccessToken_ok env s a rt2 ei et hrt htok ha]
    simp [refreshedStore]

/-- C9 amended witness: concrete exchange and refresh runs, one with a
numeric `expires_in`, plus the evaluated defaults. -/
theorem claim_C9_amended_witness :
    (exchangeCodeForToken
      ⟨fun _ => .net, fun _ => .resp true (some "AT") none (.num 120) ""⟩
      "c" none stC9).2.store.token_expiry = some (1000 + 120 * 1000) ∧
    (refreshAccessToken
      ⟨fun _ => .net, fun _ => .resp true (some "AT") none .absent ""⟩
      stVerifier).2.store.token_expiry = some (3 + 3600 * 1000) ∧
    lifetimeOf .null = 0 := by
  obtain ⟨h1, h2, h3, h4, h5, h6, h7⟩ := claim_C9_amended
  exact ⟨h1 ⟨fun _ => .net, fun _ => .resp true (some "AT") none (.num 120) ""⟩
      "c" none stC9 "AT" none (.num 120) "" (by decide) (by decide) rfl
      (by decide),
    h2 ⟨fun _ => .net, fun _ => .resp true (some "AT") none .absent ""⟩
      stVerifier "AT" none .absent "" (by decide) rfl (by decide), h5⟩

/-! ### Claim C10 — empty or non-array track list is a silent no-op -/

/-- C10: with a truthy playlist id, `addTracksToPlaylist` on a non-array
`trackUris` or on an empty array returns immediately with the state —
credential store, call counters and event trace — completely
untouched. -/
theorem claim_C10_empty_tracklist_noop (env : Env) (token : Option String)
    (pid : JVal) (s : St) (hpid : jsTruthyV pid = true) :
    addTracksToPlaylist env token pid .notArray s = (.ok (), s) ∧
    addTracksToPlaylist env token pid (.arr []) s = (.ok (), s) := by
  unfold addTracksToPlaylist
  simp [hpid]

/-- C10 witness: the concrete no-op runs. -/
theorem claim_C10_empty_tracklist_noop_witness :
    addTracksToPlaylist envTokFail (some "TOK") (.str "plid") .notArray
      stVerifier = (.ok (), stVerifier) ∧
    addTracksToPlaylist envTokFail (some "TOK") (.str "plid") (.arr [])
      stVerifier = (.ok (), stVerifier) :=
  claim_C10_empty_tracklist_noop envTokFail (some "TOK") (.str "plid")
    stVerifier (by decide)

/-! ### Claim C8 — invalid mood rejection and the preceding profile call -/

/-- Environment whose API always returns a valid `/me` profile. -/
def envMe : Env :=
  ⟨fun _ => .resp ⟨200, "OK", some "x", some (.obj [("id", .str "user1")])⟩,
   fun _ => .net⟩

/-- Base state for concrete orchestrator runs. -/
def stB : St := { now := 7 }

/-- C8 counterexample: `generatePlaylist` with the unrecognized mood
"angry" does fail with the invalid-mood error, but only after one
network call — the `/me` profile validation — has already been
dispatched, so "before any network call is made" is false. -/
theorem claim_C8_counterexample :
    (generatePlaylist envMe (some "TOK") "angry" false stB).1 =
      .error "Invalid mood: angry" ∧
    (generatePlaylist envMe (some "TOK") "angry" false stB).2.events =
      [Event.dispatch "https://api.spotify.com/v1/me" "GET" "TOK" none] ∧
    (generatePlaylist envMe (some "TOK") "angry" false stB).2.apiCount =
      1 := by
  exact ⟨rfl, rfl, rfl⟩

/-- Mood validation inside `getRecommendedTracks`: an unrecognized,
non-empty mood fails immediately without touching the state. -/
theorem getRecommendedTracks_invalidMood (env : Env)
    (token : Option String) (mood : String) (s : St) (hmne : mood ≠ "")
    (hmm : moodMap (strToLower mood) = none) :
    getRecommendedTracks env token mood s =
      (.error ("Invalid mood: " ++ mood), s) := by
  unfold getRecommendedTracks
  simp [hmne, hmm]

/-- C8 (amended): for every mood outside the enumerated set,
`generatePlaylist` fails with the invalid-mood error after exactly the
single profile-validation (`/me`) request and before any track-sourcing
or playlist network call: the run's whole trace is that one dispatch. -/
theorem claim_C8_amended (env : Env) (t mood : String) (s : St)
    (me : JVal) (stx : String) (bt : Option String)
    (ht : t ≠ "") (he : s.store.token_expiry = none)
    (hmne : mood ≠ "") (hmm : moodMap (strToLower mood) = none)
    (hme : env.api s.apiCount = .resp ⟨200, stx, bt, some me⟩)
    (hmetruthy : jsTruthyV me = true)
    (hid : jsTruthyV ((jGet me "id").getD JVal.null) = true) :
    generatePlaylist env (some t) mood false s =
      (.error ("Invalid mood: " ++ mood), afterDispatch s "/me" {} t) ∧
    (generatePlaylist env (some t) mood false s).2.apiCount =
      s.apiCount + 1 ∧
    (generatePlaylist env (some t) mood false s).2.events =
      s.events ++ [Event.dispatch (buildFullUrl "/me") "GET" t none] := by
  have hmain : generatePlaylist env (some t) mood false s =
      (.error ("Invalid mood: " ++ mood), afterDispatch s "/me" {} t) := by
    unfold generatePlaylist
    rw [spotifyFetch_ok200 env "/me" t {} s stx bt me ht he hme]
    dsimp only
    rw [if_neg (by simp [hmetruthy, hid])]
    rw [getRecommendedTracks_invalidMood env (some t) mood _ hmne hmm]
  refine ⟨hmain, ?_, ?_⟩ <;> rw [hmain] <;> simp [afterDispatch]

/-- C8 amended witness: the concrete "angry" run instantiating the
amended claim. -/
theorem claim_C8_amended_witness :
    generatePlaylist envMe (some "TOK") "angry" false stB =
      (.error "Invalid mood: angry", afterDispatch stB "/me" {} "TOK") ∧
    (generatePlaylist envMe (some "TOK") "angry" false stB).2.apiCount =
      stB.apiCount + 1 ∧
    (generatePlaylist envMe (some "TOK") "angry" false stB).2.events =
      stB.events ++
        [Event.dispatch (buildFullUrl "/me") "GET" "TOK" none] :=
  claim_C8_amended envMe "TOK" "angry" stB
    (.obj [("id", .str "user1")]) "OK" (some "x") (by decide) rfl
    (by decide) (by decide) rfl (by decide) (by decide)

/-! ### Claim C7 — batch insertion of 250 tracks -/

/-- Truthiness of a string value. -/
theorem jsTruthyV_str (x : String) : jsTruthyV (.str x) = (x != "") := rfl

/-- 250 track URIs for the C7 counterexample and witness. -/
def uris250 : List JVal := (List.range 250).map (fun i => .str ("u" ++ toString i))

/-- Environment for the C7 counterexample: insertion calls succeed except
the second (index 1), which fails with a 500 whose body is "boom". -/
def envC7 : Env :=
  ⟨fun n => if n = 1 then .resp ⟨500, "ERR", some "boom", none⟩
            else .resp ⟨200, "OK", some "x", some (.obj [])⟩,
   fun _ => .net⟩

/-- Environment for the C7 witness: every insertion call succeeds. -/
def envC7ok : Env :=
  ⟨fun _ => .resp ⟨200, "OK", some "x", some (.obj [])⟩, fun _ => .net⟩

/-- C7 counterexample: on 250 URIs with the 2nd insertion call failing,
the 3rd call is indeed never issued (two dispatches), but the surfaced
error is exactly the propagated request-layer message
"Spotify API Error 500: boom" — it does not report that 100 tracks were
inserted so far (it does not even contain the digits "100"), so the
claim's reporting clause is false. -/
theorem claim_C7_counterexample :
    (addTracksToPlaylist envC7 (some "TOK") (.str "plid") (.arr uris250)
      stB).1 = .error "Spotify API Error 500: boom" ∧
    (addTracksToPlaylist envC7 (some "TOK") (.str "plid") (.arr uris250)
      stB).2.apiCount = 2 ∧
    strContains "Spotify API Error 500: boom" "100" = false ∧
    strContains "Spotify API Error 500: boom" "inserted" = false := by
  exact ⟨by rfl, by rfl, by rfl, by rfl⟩

/-- With every insertion call succeeding, 250 URIs are inserted in
exactly three sequential calls carrying the first 100, next 100 and last
50 URIs, in list order. -/
theorem addTracksToPlaylist_three_batches (env : Env) (t pid : String)
    (s : St) (uris : List JVal)
    (ht : t ≠ "") (he : s.store.token_expiry = none)
    (hlen : uris.length = 250) (hpid : pid ≠ "")
    (hpfx : strStartsWith pid "spotify:playlist:" = false)
    (hok : ∀ n, ∃ stx bt j, env.api n = .resp ⟨200, stx, bt, some j⟩) :
    addTracksToPlaylist env (some t) (.str pid) (.arr uris) s =
      (.ok (),
       { s with
         apiCount := s.apiCount + 3
         events := s.events ++
           [Event.dispatch (buildFullUrl ("/playlists/" ++ pid ++ "/tracks"))
             "POST" t (some (.obj [("uris", .arr (uris.take 100))])),
            Event.dispatch (buildFullUrl ("/playlists/" ++ pid ++ "/tracks"))
             "POST" t
             (some (.obj [("uris", .arr ((uris.drop 100).take 100))])),
            Event.dispatch (buildFullUrl ("/playlists/" ++ pid ++ "/tracks"))
             "POST" t
             (some (.obj [("uris",
               .arr (((uris.drop 100).drop 100).take 100))]))] }) := by
  have hne : uris.isEmpty = false := by
    cases uris with
    | nil => simp at hlen
    | cons a l => rfl
  unfold addTracksToPlaylist
  rw [jsTruthyV_str]
  rw [if_neg (by simp [hpid])]
  dsimp only
  simp only [hne, Bool.false_eq_true, if_false]
  rw [hpfx]
  simp only [Bool.false_eq_true, if_false]
  rw [hlen]
  -- iteration 1
  rw [show (250 : Nat) = 249 + 1 from rfl]
  rw [addTracksLoopF]
  simp only [hne, Bool.false_eq_true, if_false]
  obtain ⟨x1, b1, j1, hj1⟩ := hok s.apiCount
  rw [spotifyFetch_ok200 env _ t _ s x1 b1 j1 ht he hj1]
  dsimp only
  -- iteration 2
  have hlen2 : (uris.drop 100).length = 150 := by simp [hlen]
  have hne2 : (uris.drop 100).isEmpty = false := by
    cases h : uris.drop 100 with
    | nil => rw [h] at hlen2; simp at hlen2
    | cons a l => rfl
  rw [addTracksLoopF]
  simp only [hne2, Bool.false_eq_true, if_false]
  obtain ⟨x2, b2, j2, hj2⟩ := hok (s.apiCount + 1)
  rw [spotifyFetch_ok200 env _ t _ _ x2 b2 j2 ht
    (by simp [afterDispatch, he]) (by simpa [afterDispatch] using hj2)]
  dsimp only
  -- iteration 3
  have hlen3 : ((uris.drop 100).drop 100).length = 50 := by simp [hlen]
  have hne3 : ((uris.drop 100).drop 100).isEmpty = false := by
    cases h : (uris.drop 100).drop 100 with
    | nil => rw [h] at hlen3; simp at hlen3
    | cons a l => rfl
  rw [addTracksLoopF]
  simp only [hne3, Bool.false_eq_true, if_false]
  obtain ⟨x3, b3, j3, hj3⟩ := hok (s.apiCount + 2)
  rw [spotifyFetch_ok200 env _ t _ _ x3 b3 j3 ht
    (by simp [afterDispatch, he]) (by simpa [afterDispatch] using hj3)]
  dsimp only
  -- iteration 4: list exhausted
  have hnil : ((uris.drop 100).drop 100).drop 100 = [] := by
    have : (((uris.drop 100).drop 100).drop 100).length = 0 := by simp [hlen]
    exact List.eq_nil_of_length_eq_zero this
  rw [addTracksLoopF]
  rw [hnil]
  simp [afterDispatch, jsToString]

/-- When the second insertion call fails with a non-2xx status, the
third call is never dispatched and the request-layer error propagates
unchanged. -/
theorem addTracksToPlaylist_abort_on_second_failure (env : Env)
    (t pid : String) (s : St) (uris : List JVal) (r : HttpResp)
    (ht : t ≠ "") (he : s.store.token_expiry = none)
    (hlen : uris.length = 250) (hpid : pid ≠ "")
    (hpfx : strStartsWith pid "spotify:playlist:" = false)
    (hok1 : ∃ stx bt j, env.api s.apiCount = .resp ⟨200, stx, bt, some j⟩)
    (hr : env.api (s.apiCount + 1) = .resp r)
    (h401 : r.status ≠ 401) (h204 : r.status ≠ 204)
    (h2xx : ¬ (200 ≤ r.status ∧ r.status < 300)) (h403 : r.status ≠ 403)
    (h404 : r.status ≠ 404) :
    addTracksToPlaylist env (some t) (.str pid) (.arr uris) s =
      (.error ("Spotify API Error " ++ toString r.status ++ ": " ++
        respErrMsg r),
       { s with
         apiCount := s.apiCount + 2
         events := s.events ++
           [Event.dispatch (buildFullUrl ("/playlists/" ++ pid ++ "/tracks"))
             "POST" t (some (.obj [("uris", .arr (uris.take 100))])),
            Event.dispatch (buildFullUrl ("/playlists/" ++ pid ++ "/tracks"))
             "POST" t
             (some (.obj [("uris", .arr ((uris.drop 100).take 100))]))] }) := by
  have hne : uris.isEmpty = false := by
    cases uris with
    | nil => simp at hlen
    | cons a l => rfl
  unfold addTracksToPlaylist
  rw [jsTruthyV_str]
  rw [if_neg (by simp [hpid])]
  dsimp only
  simp only [hne, Bool.false_eq_true, if_false]
  rw [hpfx]
  simp only [Bool.false_eq_true, if_false]
  rw [hlen]
  rw [show (250 : Nat) = 249 + 1 from rfl]
  rw [addTracksLoopF]
  simp only [hne, Bool.false_eq_true, if_false]
  obtain ⟨x1, b1, j1, hj1⟩ := hok1
  rw [spotifyFetch_ok200 env _ t _ s x1 b1 j1 ht he hj1]
  dsimp only
  have hlen2 : (uris.drop 100).length = 150 := by simp [hlen]
  have hne2 : (uris.drop 100).isEmpty = false := by
    cases h : uris.drop 100 with
    | nil => rw [h] at hlen2; simp at hlen2
    | cons a l => rfl
  rw [addTracksLoopF]
  simp only [hne2, Bool.false_eq_true, if_false]
  rw [spotifyFetch_err env _ t _ _ r ht (by simp [afterDispatch, he])
    (by simpa [afterDispatch] using hr) h401 h204 h2xx h403 h404]
  simp [afterDispatch, jsToString]

/-- C7 (amended): inserting a list of 250 track URIs issues exactly 3
sequential insertion calls whose bodies are the first 100, next 100 and
last 50 URIs in list order; if the 2nd call fails, the 3rd is never
issued and the request-layer error propagates to the caller unchanged
(the code reports no tracks-inserted-so-far count). -/
theorem claim_C7_amended :
    (∀ env t pid s uris,
      t ≠ "" → (s : St).store.token_expiry = none →
      (uris : List JVal).length = 250 → (pid : String) ≠ "" →
      strStartsWith pid "spotify:playlist:" = false →
      (∀ n, ∃ stx bt j,
        (env : Env).api n = .resp ⟨200, stx, bt, some j⟩) →
      addTracksToPlaylist env (some t) (.str pid) (.arr uris) s =
        (.ok (),
         { s with
           apiCount := s.apiCount + 3
           events := s.events ++
             [Event.dispatch
               (buildFullUrl ("/playlists/" ++ pid ++ "/tracks")) "POST" t
               (some (.obj [("uris", .arr (uris.take 100))])),
              Event.dispatch
               (buildFullUrl ("/playlists/" ++ pid ++ "/tracks")) "POST" t
               (some (.obj [("uris", .arr ((uris.drop 100).take 100))])),
              Event.dispatch
               (buildFullUrl ("/playlists/" ++ pid ++ "/tracks")) "POST" t
               (some (.obj [("uris",
                 .arr (((uris.drop 100).drop 100).take 100))]))] }) ∧
      (uris.take 100).length = 100 ∧
      ((uris.drop 100).take 100).length = 100 ∧
      (((uris.drop 100).drop 100).take 100).length = 50) ∧
    (∀ env t pid s uris r,
      t ≠ "" → (s : St).store.token_expiry = none →
      (uris : List JVal).length = 250 → (pid : String) ≠ "" →
      strStartsWith pid "spotify:playlist:" = false →
      (∃ stx bt j,
        (env : Env).api s.apiCount = .resp ⟨200, stx, bt, some j⟩) →
      env.api (s.apiCount + 1) = .resp r →
      (r : HttpResp).status ≠ 401 → r.status ≠ 204 →
      ¬ (200 ≤ r.status ∧ r.status < 300) → r.status ≠ 403 →
      r.status ≠ 404 →
      addTracksToPlaylist env (some t) (.str pid) (.arr uris) s =
        (.error ("Spotify API Error " ++ toString r.status ++ ": " ++
          respErrMsg r),
         { s with
           apiCount := s.apiCount + 2
           events := s.events ++
             [Event.dispatch
               (buildFullUrl ("/playlists/" ++ pid ++ "/tracks")) "POST" t
               (some (.obj [("uris", .arr (uris.take 100))])),
              Event.dispatch
               (buildFullUrl ("/playlists/" ++ pid ++ "/tracks")) "POST" t
               (some (.obj
                 [("uris", .arr ((uris.drop 100).take 100))]))] })) := by
  constructor
  · intro env t pid s uris ht he hlen hpid hpfx hok
    refine ⟨addTracksToPlaylist_three_batches env t pid s uris ht he hlen
      hpid hpfx hok, ?_, ?_, ?_⟩ <;> simp [hlen]
  · intro env t pid s uris r ht he hlen hpid hpfx hok1 hr h401 h204 h2xx
      h403 h404
    exact addTracksToPlaylist_abort_on_second_failure env t pid s uris r ht
      he hlen hpid hpfx hok1 hr h401 h204 h2xx h403 h404

/-- C7 amended witness: the concrete 250-URI runs, successful and with a
failing second call. -/
theorem claim_C7_amended_witness :
    (addTracksToPlaylist envC7ok (some "TOK") (.str "plid") (.arr uris250)
      stB).1 = .ok () ∧
    (addTracksToPlaylist envC7ok (some "TOK") (.str "plid") (.arr uris250)
      stB).2.apiCount = 3 ∧
    (addTracksToPlaylist envC7 (some "TOK") (.str "plid") (.arr uris250)
      stB).1 = .error ("Spotify API Error " ++ toString (500 : Nat) ++
        ": " ++ respErrMsg ⟨500, "ERR", some "boom", none⟩) ∧
    (uris250.take 100).length = 100 := by
  obtain ⟨h1, h2⟩ := claim_C7_amended
  obtain ⟨hrun, hc1, hc2, hc3⟩ := h1 envC7ok "TOK" "plid" stB uris250
    (by decide) rfl (by rfl) (by decide) (by rfl)
    (fun n => ⟨"OK", some "x", .obj [], rfl⟩)
  have hrun2 := h2 envC7 "TOK" "plid" stB uris250
    ⟨500, "ERR", some "boom", none⟩
    (by decide) rfl (by rfl) (by decide) (by rfl)
    ⟨"OK", some "x", .obj [], rfl⟩ rfl (by decide) (by decide) (by decide)
    (by decide) (by decide)
  exact ⟨by rw [hrun], by rw [hrun]; rfl, by rw [hrun2], hc1⟩

/-! ### Claim C5 — fallback-chain exhaustion ends at the static list -/

/-- A failed 500 response used to represent "this sourcing attempt
fails". -/
def resp500 : HttpResp := ⟨500, "ERR", some "boom", none⟩

/-- A 200 response whose JSON body is an empty object, representing
"this sourcing attempt returns nothing". -/
def okEmpty : HttpResp := ⟨200, "OK", some "x", some (.obj [])⟩

/-- The ways a sourcing call can come back empty-handed: a transport
failure, an upstream 500, or a well-formed response with no items. -/
def SourceFail (o : FetchOut) : Prop :=
  o = .net ∨ o = .resp resp500 ∨ o = .resp okEmpty

/-- Under a `SourceFail` outcome, `spotifyFetch` either raises one of
the two errors or returns the empty object, in each case performing
exactly one dispatch and leaving the store untouched. -/
theorem spotifyFetch_sourceFail (env : Env) (url : String) (t : String)
    (opts : Opts) (s : St) (ht : t ≠ "")
    (he : s.store.token_expiry = none)
    (hsf : SourceFail (env.api s.apiCount)) :
    spotifyFetch env url (some t) opts 0 s =
      (.error "Network error while contacting Spotify API.",
       afterDispatch s url opts t) ∨
    spotifyFetch env url (some t) opts 0 s =
      (.error "Spotify API Error 500: boom", afterDispatch s url opts t) ∨
    spotifyFetch env url (some t) opts 0 s =
      (.ok (.obj []), afterDispatch s url opts t) := by
  rcases hsf with h | h | h
  · exact Or.inl (spotifyFetch_net env url t opts s ht he h)
  · refine Or.inr (Or.inl ?_)
    have := spotifyFetch_err env url t opts s resp500 ht he h
      (by decide) (by decide) (by decide) (by decide) (by decide)
    rw [this]
    rfl
  · exact Or.inr (Or.inr (spotifyFetch_ok200 env url t opts s "OK"
      (some "x") (.obj []) ht he h))

/-- When every remaining API call fails or comes back empty, the tail of
the fallback chain (track-seeded recommendations, direct top tracks,
saved tracks) yields nothing and the static built-in list is returned;
the store is untouched. -/
theorem getRecommendedTracksTail_exhaust (env : Env) (t : String)
    (targets : List (String × String)) (s : St) (ht : t ≠ "")
    (he : s.store.token_expiry = none)
    (hall : ∀ n, s.apiCount ≤ n → SourceFail (env.api n)) :
    (getRecommendedTracksTail env (some t) targets s).1 =
      .ok (STATIC_FALLBACK_URIS.take 25) ∧
    ((getRecommendedTracksTail env (some t) targets s).2).store =
      s.store ∧
    s.apiCount ≤
      ((getRecommendedTracksTail env (some t) targets s).2).apiCount := by
  have hf1 := spotifyFetch_sourceFail env "/me/top/tracks?limit=5" t {} s
    ht he (hall s.apiCount le_rfl)
  have hf2 := spotifyFetch_sourceFail env "/me/top/tracks?limit=25" t {}
    (afterDispatch s "/me/top/tracks?limit=5" {} t) ht
    (by simp [afterDispatch, he])
    (hall _ (by simp only [afterDispatch]; omega))
  have hf3 := spotifyFetch_sourceFail env "/me/tracks?limit=25" t {}
    (afterDispatch (afterDispatch s "/me/top/tracks?limit=5" {} t)
      "/me/top/tracks?limit=25" {} t) ht
    (by simp [afterDispatch, he])
    (hall _ (by simp only [afterDispatch]; omega))
  unfold getRecommendedTracksTail
  rcases hf1 with h1 | h1 | h1 <;> rw [h1] <;>
    dsimp only [jGet, List.lookup] <;>
  rcases hf2 with h2 | h2 | h2 <;> rw [h2] <;>
    dsimp only [jGet, List.lookup] <;>
  rcases hf3 with h3 | h3 | h3 <;> rw [h3] <;>
    dsimp only [jGet, List.lookup] <;>
  exact ⟨rfl, by simp [afterDispatch],
    by simp only [afterDispatch]; omega⟩

/-- When every API call from the current counter onward fails or comes
back empty, `getRecommendedTracks` (with a valid mood) exhausts the
whole chain and returns the static built-in list, leaving the store
untouched. -/
theorem getRecommendedTracks_exhaust (env : Env) (t mood : String)
    (targets : List (String × String)) (s : St) (ht : t ≠ "")
    (he : s.store.token_expiry = none) (hmne : mood ≠ "")
    (hmm : moodMap (strToLower mood) = some targets)
    (hall : ∀ n, s.apiCount ≤ n → SourceFail (env.api n)) :
    (getRecommendedTracks env (some t) mood s).1 =
      .ok (STATIC_FALLBACK_URIS.take 25) ∧
    ((getRecommendedTracks env (some t) mood s).2).store = s.store ∧
    s.apiCount ≤
      ((getRecommendedTracks env (some t) mood s).2).apiCount := by
  have hf0 := spotifyFetch_sourceFail env "/me/top/artists?limit=5" t {} s
    ht he (hall s.apiCount le_rfl)
  have htail := getRecommendedTracksTail_exhaust env t targets
    (afterDispatch s "/me/top/artists?limit=5" {} t) ht
    (by simp [afterDispatch, he])
    (fun n hn => hall n (by simp only [afterDispatch] at hn; omega))
  unfold getRecommendedTracks
  rw [if_neg hmne, hmm]
  dsimp only
  rcases hf0 with h0 | h0 | h0 <;> rw [h0] <;>
    dsimp only [jGet, List.lookup] <;>
  exact ⟨htail.1, htail.2.1, le_trans (Nat.le_succ _) htail.2.2⟩

/-- Inside `generatePlaylist`, chain exhaustion never raises the
no-tracks error: the static list is non-empty, so the run proceeds to
playlist creation (whose own failure is a different error). -/
theorem generatePlaylist_exhaust_no_noTracks (env : Env) (t mood : String)
    (targets : List (String × String)) (s : St) (me : JVal) (stx : String)
    (bt : Option String)
    (ht : t ≠ "") (he : s.store.token_expiry = none) (hmne : mood ≠ "")
    (hmm : moodMap (strToLower mood) = some targets)
    (hme : env.api s.apiCount = .resp ⟨200, stx, bt, some me⟩)
    (hmetruthy : jsTruthyV me = true)
    (hid : jsTruthyV ((jGet me "id").getD JVal.null) = true)
    (hall : ∀ n, s.apiCount + 1 ≤ n → SourceFail (env.api n)) :
    (generatePlaylist env (some t) mood false s).1 ≠
      .error "No tracks available to add." := by
  unfold generatePlaylist
  rw [spotifyFetch_ok200 env "/me" t {} s stx bt me ht he hme]
  dsimp only
  rw [if_neg (by simp [hmetruthy, hid])]
  have hrec := getRecommendedTracks_exhaust env t mood targets
    (afterDispatch s "/me" {} t) ht (by simp [afterDispatch, he]) hmne hmm
    (fun n hn => hall n (by simp only [afterDispatch] at hn; omega))
  rcases hg : getRecommendedTracks env (some t) mood
      (afterDispatch s "/me" {} t) with ⟨rr, s2⟩
  rw [hg] at hrec
  simp only [] at hrec
  obtain ⟨hrr, hst, hcnt⟩ := hrec
  subst hrr
  dsimp only
  rw [if_neg (by decide)]
  have he2 : s2.store.token_expiry = none := by
    rw [hst]
    simpa [afterDispatch] using he
  have hcnt2 : s.apiCount + 1 ≤ s2.apiCount := by
    simp only [afterDispatch] at hcnt
    omega
  have hpl := spotifyFetch_sourceFail env "/me/playlists" t
    { method := "POST",
      body := some (.obj
        [("name", .str ("MoodPlayl.ist: " ++
          (if mood ≠ "" then jsCapitalize mood else "Custom") ++ " Vibe")),
         ("description", .str "Generated by MoodPlayl.ist"),
         ("public", .bool false)]) } s2 ht he2 (hall _ hcnt2)
  unfold createNewPlaylist
  dsimp only
  rcases hpl with hp | hp | hp <;> rw [hp] <;>
    dsimp only [jGet, List.lookup] <;> simp [jsTruthyV]

/-- C5: if every track-sourcing attempt fails or returns empty,
`getRecommendedTracks` returns exactly the static built-in fallback list
truncated to at most 25 entries (here all 5 of them, a non-empty list),
and `generatePlaylist` in that situation never raises the
no-tracks-available error. -/
theorem claim_C5_fallback_exhaustion :
    (∀ env t mood targets s, (t : String) ≠ "" →
      (s : St).store.token_expiry = none → (mood : String) ≠ "" →
      moodMap (strToLower mood) = some targets →
      (∀ n, s.apiCount ≤ n → SourceFail ((env : Env).api n)) →
      (getRecommendedTracks env (some t) mood s).1 =
        .ok (STATIC_FALLBACK_URIS.take 25) ∧
      STATIC_FALLBACK_URIS.take 25 ≠ [] ∧
      (STATIC_FALLBACK_URIS.take 25).length ≤ 25) ∧
    (∀ env t mood targets s me stx bt, (t : String) ≠ "" →
      (s : St).store.token_expiry = none → (mood : String) ≠ "" →
      moodMap (strToLower mood) = some targets →
      (env : Env).api s.apiCount =
        .resp ⟨200, stx, bt, some (me : JVal)⟩ →
      jsTruthyV me = true →
      jsTruthyV ((jGet me "id").getD JVal.null) = true →
      (∀ n, s.apiCount + 1 ≤ n → SourceFail (env.api n)) →
      (generatePlaylist env (some t) mood false s).1 ≠
        .error "No tracks available to add.") := by
  constructor
  · intro env t mood targets s ht he hmne hmm hall
    exact ⟨(getRecommendedTracks_exhaust env t mood targets s ht he hmne
      hmm hall).1, by simp [STATIC_FALLBACK_URIS],
      by simp [STATIC_FALLBACK_URIS]⟩
  · intro env t mood targets s me stx bt ht he hmne hmm hme hmet hid hall
    exact generatePlaylist_exhaust_no_noTracks env t mood targets s me stx
      bt ht he hmne hmm hme hmet hid hall

/-- Environment where every call fails with a 500. -/
def envAllFail : Env := ⟨fun _ => .resp resp500, fun _ => .net⟩

/-- Environment where `/me` (call 0) succeeds and every further call
fails with a 500. -/
def envC5 : Env :=
  ⟨fun n => if n = 0 then
      .resp ⟨200, "OK", some "x", some (.obj [("id", .str "user1")])⟩
    else .resp resp500,
   fun _ => .net⟩

/-- C5 witness: the concrete all-failing runs. -/
theorem claim_C5_fallback_exhaustion_witness :
    (getRecommendedTracks envAllFail (some "TOK") "chill" stB).1 =
      .ok (STATIC_FALLBACK_URIS.take 25) ∧
    (generatePlaylist envC5 (some "TOK") "chill" false stB).1 ≠
      .error "No tracks available to add." := by
  obtain ⟨h1, h2⟩ := claim_C5_fallback_exhaustion
  refine ⟨(h1 envAllFail "TOK" "chill" _ stB (by decide) rfl (by decide)
    rfl (fun n _ => Or.inr (Or.inl rfl))).1, ?_⟩
  refine h2 envC5 "TOK" "chill" _ stB (.obj [("id", .str "user1")]) "OK"
    (some "x") (by decide) rfl (by decide) rfl rfl (by decide) (by decide)
    (fun n hn => Or.inr (Or.inl ?_))
  show (if n = 0 then
      FetchOut.resp ⟨200, "OK", some "x", some (.obj [("id", .str "user1")])⟩
    else .resp resp500) = .resp resp500
  rw [if_neg (by omega)]

/-! ### Claim C6 — the fallback chain's order and membership -/

/-- URL of a dispatch event. -/
def urlOf : Event → String
  | .dispatch u _ _ _ => u
  | _ => ""

/-- Environment for the C6 counterexample: top artists yield a seed, the
artist-seeded recommendation is empty, top tracks yield a seed, the
track-seeded recommendation is empty, and `/me/top/tracks?limit=25` has
one track. -/
def envC6 : Env :=
  ⟨fun n =>
    if n = 0 then
      .resp ⟨200, "OK", none,
        some (.obj [("items", .arr [.obj [("id", .str "a1")]])])⟩
    else if n = 1 then
      .resp ⟨200, "OK", none, some (.obj [("tracks", .arr [])])⟩
    else if n = 2 then
      .resp ⟨200, "OK", none,
        some (.obj [("items", .arr [.obj [("id", .str "t1")]])])⟩
    else if n = 3 then
      .resp ⟨200, "OK", none, some (.obj [("tracks", .arr [])])⟩
    else if n = 4 then
      .resp ⟨200, "OK", none,
        some (.obj [("items", .arr [.obj [("uri", .str "u1")]])])⟩
    else .resp resp500,
   fun _ => .net⟩

/-- C6 counterexample: in a run where the artist-seeded and track-seeded
recommendation attempts are both made and both come back empty, the
chain's next step is the *direct* top-tracks return — no
recommendation query seeded by a fixed genre set is ever dispatched: no
requested URL mentions `seed_genres` at all.  The claim's step (c) does
not exist in the code's chain. -/
theorem claim_C6_counterexample :
    (getRecommendedTracks envC6 (some "TOK") "chill" stB).1 =
      .ok [.str "u1"] ∧
    ((getRecommendedTracks envC6 (some "TOK") "chill" stB).2.events.map
      urlOf) =
      ["https://api.spotify.com/v1/me/top/artists?limit=5",
       "https://api.spotify.com/v1/recommendations?limit=25&target_valence=0.7&target_energy=0.4&target_danceability=0.5&max_tempo=110&seed_artists=a1",
       "https://api.spotify.com/v1/me/top/tracks?limit=5",
       "https://api.spotify.com/v1/recommendations?limit=25&target_valence=0.7&target_energy=0.4&target_danceability=0.5&max_tempo=110&seed_tracks=t1",
       "https://api.spotify.com/v1/me/top/tracks?limit=25"] ∧
    (((getRecommendedTracks envC6 (some "TOK") "chill" stB).2.events.map
      urlOf).all (fun u => !(strContains u "seed_genres"))) = true := by
  exact ⟨by rfl, by rfl, by rfl⟩

/-- Chain stop at step (a): top artists yield seeds and the
artist-seeded recommendation yields tracks, so the result is that track
list after exactly two dispatches. -/
theorem chain_stop_at_artist_seeded (env : Env) (t mood : String)
    (targets : List (String × String)) (s : St) (artItems ts : List JVal)
    (x0 x1 : String) (b0 b1 : Option String)
    (ht : t ≠ "") (he : s.store.token_expiry = none) (hmne : mood ≠ "")
    (hmm : moodMap (strToLower mood) = some targets)
    (ha0 : env.api s.apiCount =
      .resp ⟨200, x0, b0, some (.obj [("items", .arr artItems)])⟩)
    (hart : artItems.isEmpty = false)
    (hids : ((extractIds artItems).take 5).isEmpty = false)
    (hjoin : joinIds ((extractIds artItems).take 5) ≠ "")
    (ha1 : env.api (s.apiCount + 1) =
      .resp ⟨200, x1, b1, some (.obj [("tracks", .arr ts)])⟩)
    (hts : ts.isEmpty = false)
    (hus : (extractUris ts).isEmpty = false) :
    getRecommendedTracks env (some t) mood s =
      (.ok (extractUris ts),
       { s with
         apiCount := s.apiCount + 2
         events := s.events ++
           [Event.dispatch (buildFullUrl "/me/top/artists?limit=5") "GET" t
             none,
            Event.dispatch (buildFullUrl ("/recommendations?" ++
              paramsToString (paramsSet (buildRecommendationParams targets 25)
                "seed_artists" (joinIds ((extractIds artItems).take 5)))))
             "GET" t none] }) := by
  unfold getRecommendedTracks
  rw [if_neg hmne, hmm]
  dsimp only
  rw [spotifyFetch_ok200 env "/me/top/artists?limit=5" t {} s x0 b0 _ ht he
    ha0]
  dsimp only
  simp only [jGet, List.lookup,
    show ("items" == "items") = true from rfl]
  rw [hart]
  simp only [Bool.false_eq_true, if_false]
  simp only [hids, Bool.false_eq_true, not_false_iff, if_true]
  unfold tryRecommendations
  dsimp only [List.foldl]
  rw [if_pos hjoin]
  rw [spotifyFetch_ok200 env _ t {} _ x1 b1 _ ht
    (by simp [afterDispatch, he]) (by simpa [afterDispatch] using ha1)]
  dsimp only
  simp only [jGet, List.lookup,
    show ("tracks" == "tracks") = true from rfl]
  rw [hts]
  simp only [Bool.false_eq_true, if_false]
  simp only [hus, Bool.false_eq_true, not_false_iff, if_true]
  simp [afterDispatch]

/-- Tail stop at the track-seeded recommendation: top tracks yield seeds
and the seeded recommendation yields tracks. -/
theorem chainTail_stop_at_track_seeded (env : Env) (t : String)
    (targets : List (String × String)) (s : St) (tItems ts2 : List JVal)
    (x0 x1 : String) (b0 b1 : Option String)
    (ht : t ≠ "") (he : s.store.token_expiry = none)
    (ha0 : env.api s.apiCount =
      .resp ⟨200, x0, b0, some (.obj [("items", .arr tItems)])⟩)
    (hitems : tItems.isEmpty = false)
    (hids : ((extractIds tItems).take 5).isEmpty = false)
    (hjoin : joinIds ((extractIds tItems).take 5) ≠ "")
    (ha1 : env.api (s.apiCount + 1) =
      .resp ⟨200, x1, b1, some (.obj [("tracks", .arr ts2)])⟩)
    (hts : ts2.isEmpty = false)
    (hus : (extractUris ts2).isEmpty = false) :
    getRecommendedTracksTail env (some t) targets s =
      (.ok (extractUris ts2),
       { s with
         apiCount := s.apiCount + 2
         events := s.events ++
           [Event.dispatch (buildFullUrl "/me/top/tracks?limit=5") "GET" t
             none,
            Event.dispatch (buildFullUrl ("/recommendations?" ++
              paramsToString (paramsSet (buildRecommendationParams targets 25)
                "seed_tracks" (joinIds ((extractIds tItems).take 5)))))
             "GET" t none] }) := by
  unfold getRecommendedTracksTail
  rw [spotifyFetch_ok200 env "/me/top/tracks?limit=5" t {} s x0 b0 _ ht he
    ha0]
  dsimp only
  simp only [jGet, List.lookup,
    show ("items" == "items") = true from rfl]
  rw [hitems]
  simp only [Bool.false_eq_true, if_false]
  rw [hids]
  simp only [Bool.false_eq_true, if_false]
  unfold tryRecommendations
  dsimp only [List.foldl]
  rw [if_pos hjoin]
  rw [spotifyFetch_ok200 env _ t {} _ x1 b1 _ ht
    (by simp [afterDispatch, he]) (by simpa [afterDispatch] using ha1)]
  dsimp only
  simp only [jGet, List.lookup,
    show ("tracks" == "tracks") = true from rfl]
  rw [hts]
  simp only [Bool.false_eq_true, if_false]
  rw [hus]
  simp only [Bool.false_eq_true, if_false]
  simp [afterDispatch]

/-- Chain stop at step (b): artists seed a recommendation that comes
back empty, then top tracks seed one that yields tracks. -/
theorem chain_stop_at_track_seeded (env : Env) (t mood : String)
    (targets : List (String × String)) (s : St)
    (artItems tItems ts2 : List JVal)
    (x0 x1 x2 x3 : String) (b0 b1 b2 b3 : Option String)
    (ht : t ≠ "") (he : s.store.token_expiry = none) (hmne : mood ≠ "")
    (hmm : moodMap (strToLower mood) = some targets)
    (ha0 : env.api s.apiCount =
      .resp ⟨200, x0, b0, some (.obj [("items", .arr artItems)])⟩)
    (hart : artItems.isEmpty = false)
    (hids : ((extractIds artItems).take 5).isEmpty = false)
    (hjoin : joinIds ((extractIds artItems).take 5) ≠ "")
    (ha1 : env.api (s.apiCount + 1) =
      .resp ⟨200, x1, b1, some (.obj [("tracks", .arr [])])⟩)
    (ha2 : env.api (s.apiCount + 2) =
      .resp ⟨200, x2, b2, some (.obj [("items", .arr tItems)])⟩)
    (hitems : tItems.isEmpty = false)
    (hids2 : ((extractIds tItems).take 5).isEmpty = false)
    (hjoin2 : joinIds ((extractIds tItems).take 5) ≠ "")
    (ha3 : env.api (s.apiCount + 3) =
      .resp ⟨200, x3, b3, some (.obj [("tracks", .arr ts2)])⟩)
    (hts : ts2.isEmpty = false)
    (hus : (extractUris ts2).isEmpty = false) :
    getRecommendedTracks env (some t) mood s =
      (.ok (extractUris ts2),
       { s with
         apiCount := s.apiCount + 4
         events := s.events ++
           [Event.dispatch (buildFullUrl "/me/top/artists?limit=5") "GET" t
             none,
            Event.dispatch (buildFullUrl ("/recommendations?" ++
              paramsToString (paramsSet (buildRecommendationParams targets 25)
                "seed_artists" (joinIds ((extractIds artItems).take 5)))))
             "GET" t none,
            Event.dispatch (buildFullUrl "/me/top/tracks?limit=5") "GET" t
             none,
            Event.dispatch (buildFullUrl ("/recommendations?" ++
              paramsToString (paramsSet (buildRecommendationParams targets 25)
                "seed_tracks" (joinIds ((extractIds tItems).take 5)))))
             "GET" t none] }) := by
  unfold getRecommendedTracks
  rw [if_neg hmne, hmm]
  dsimp only
  rw [spotifyFetch_ok200 env "/me/top/artists?limit=5" t {} s x0 b0 _ ht he
    ha0]
  dsimp only
  simp only [jGet, List.lookup,
    show ("items" == "items") = true from rfl]
  rw [hart]
  simp only [Bool.false_eq_true, if_false]
  simp only [hids, Bool.false_eq_true, not_false_iff, if_true]
  unfold tryRecommendations
  dsimp only [List.foldl]
  rw [if_pos hjoin]
  rw [spotifyFetch_ok200 env _ t {} _ x1 b1 _ ht
    (by simp [afterDispatch, he]) (by simpa [afterDispatch] using ha1)]
  dsimp only
  simp only [jGet, List.lookup,
    show ("tracks" == "tracks") = true from rfl]
  simp only [List.isEmpty_nil, if_true]
  rw [chainTail_stop_at_track_seeded env t targets _ tItems ts2 x2 x3 b2 b3
    ht (by simp [afterDispatch, he]) (by simpa [afterDispatch] using ha2)
    hitems hids2 hjoin2 (by simpa [afterDispatch] using ha3) hts hus]
  simp [afterDispatch]

/-- Tail stop at the direct top-tracks return: the track-seeded attempt
finds nothing and `/me/top/tracks?limit=25` has items. -/
theorem chainTail_stop_at_top_tracks (env : Env) (t : String)
    (targets : List (String × String)) (s : St) (items : List JVal)
    (x2 : String) (b2 : Option String)
    (ht : t ≠ "") (he : s.store.token_expiry = none)
    (hsf0 : SourceFail (env.api s.apiCount))
    (ha2 : env.api (s.apiCount + 1) =
      .resp ⟨200, x2, b2, some (.obj [("items", .arr items)])⟩)
    (hitems : items.isEmpty = false) :
    getRecommendedTracksTail env (some t) targets s =
      (.ok (extractUris items),
       { s with
         apiCount := s.apiCount + 2
         events := s.events ++
           [Event.dispatch (buildFullUrl "/me/top/tracks?limit=5") "GET" t
             none,
            Event.dispatch (buildFullUrl "/me/top/tracks?limit=25") "GET" t
             none] }) := by
  have hf1 := spotifyFetch_sourceFail env "/me/top/tracks?limit=5" t {} s
    ht he hsf0
  unfold getRecommendedTracksTail
  rcases hf1 with h1 | h1 | h1 <;> rw [h1] <;>
    dsimp only [jGet, List.lookup] <;>
  · rw [spotifyFetch_ok200 env "/me/top/tracks?limit=25" t {} _ x2 b2 _ ht
      (by simp [afterDispatch, he]) (by simpa [afterDispatch] using ha2)]
    dsimp only
    simp only [jGet, List.lookup,
      show ("items" == "items") = true from rfl]
    rw [hitems]
    simp only [Bool.false_eq_true, if_false]
    simp [afterDispatch]

/-- Chain stop at step (c): all recommendation-seeding attempts find
nothing and the user's top tracks are returned directly. -/
theorem chain_stop_at_direct_top_tracks (env : Env) (t mood : String)
    (targets : List (String × String)) (s : St) (items : List JVal)
    (x2 : String) (b2 : Option String)
    (ht : t ≠ "") (he : s.store.token_expiry = none) (hmne : mood ≠ "")
    (hmm : moodMap (strToLower mood) = some targets)
    (hsf0 : SourceFail (env.api s.apiCount))
    (hsf1 : SourceFail (env.api (s.apiCount + 1)))
    (ha2 : env.api (s.apiCount + 2) =
      .resp ⟨200, x2, b2, some (.obj [("items", .arr items)])⟩)
    (hitems : items.isEmpty = false) :
    getRecommendedTracks env (some t) mood s =
      (.ok (extractUris items),
       { s with
         apiCount := s.apiCount + 3
         events := s.events ++
           [Event.dispatch (buildFullUrl "/me/top/artists?limit=5") "GET" t
             none,
            Event.dispatch (buildFullUrl "/me/top/tracks?limit=5") "GET" t
             none,
            Event.dispatch (buildFullUrl "/me/top/tracks?limit=25") "GET" t
             none] }) := by
  have hf0 := spotifyFetch_sourceFail env "/me/top/artists?limit=5" t {} s
    ht he hsf0
  unfold getRecommendedTracks
  rw [if_neg hmne, hmm]
  dsimp only
  rcases hf0 with h0 | h0 | h0 <;> rw [h0] <;>
    dsimp only [jGet, List.lookup] <;>
  · rw [chainTail_stop_at_top_tracks env t targets _ items x2 b2 ht
      (by simp [afterDispatch, he]) (by simpa [afterDispatch] using hsf1)
      (by simpa [afterDispatch] using ha2) hitems]
    simp [afterDispatch]

/-- Tail stop at the saved-tracks return: everything earlier finds
nothing and `/me/tracks?limit=25` has items. -/
theorem chainTail_stop_at_saved (env : Env) (t : String)
    (targets : List (String × String)) (s : St) (items : List JVal)
    (x3 : String) (b3 : Option String)
    (ht : t ≠ "") (he : s.store.token_expiry = none)
    (hsf0 : SourceFail (env.api s.apiCount))
    (hsf1 : SourceFail (env.api (s.apiCount + 1)))
    (ha3 : env.api (s.apiCount + 2) =
      .resp ⟨200, x3, b3, some (.obj [("items", .arr items)])⟩)
    (hitems : items.isEmpty = false) :
    getRecommendedTracksTail env (some t) targets s =
      (.ok (extractSavedUris items),
       { s with
         apiCount := s.apiCount + 3
         events := s.events ++
           [Event.dispatch (buildFullUrl "/me/top/tracks?limit=5") "GET" t
             none,
            Event.dispatch (buildFullUrl "/me/top/tracks?limit=25") "GET" t
             none,
            Event.dispatch (buildFullUrl "/me/tracks?limit=25") "GET" t
             none] }) := by
  have hf1 := spotifyFetch_sourceFail env "/me/top/tracks?limit=5" t {} s
    ht he hsf0
  have hf2 := spotifyFetch_sourceFail env "/me/top/tracks?limit=25" t {}
    (afterDispatch s "/me/top/tracks?limit=5" {} t) ht
    (by simp [afterDispatch, he]) (by simpa [afterDispatch] using hsf1)
  unfold getRecommendedTracksTail
  rcases hf1 with h1 | h1 | h1 <;> rw [h1] <;>
    dsimp only [jGet, List.lookup] <;>
  rcases hf2 with h2 | h2 | h2 <;> rw [h2] <;>
    dsimp only [jGet, List.lookup] <;>
  · rw [spotifyFetch_ok200 env "/me/tracks?limit=25" t {} _ x3 b3 _ ht
      (by simp [afterDispatch, he]) (by simpa [afterDispatch] using ha3)]
    dsimp only
    simp only [jGet, List.lookup,
      show ("items" == "items") = true from rfl]
    rw [hitems]
    simp only [Bool.false_eq_true, if_false]
    simp [afterDispatch]

/-- Chain stop at step (d): everything earlier finds nothing and the
user's saved tracks are returned directly. -/
theorem chain_stop_at_saved_tracks (env : Env) (t mood : String)
    (targets : List (String × String)) (s : St) (items : List JVal)
    (x3 : String) (b3 : Option String)
    (ht : t ≠ "") (he : s.store.token_expiry = none) (hmne : mood ≠ "")
    (hmm : moodMap (strToLower mood) = some targets)
    (hsf0 : SourceFail (env.api s.apiCount))
    (hsf1 : SourceFail (env.api (s.apiCount + 1)))
    (hsf2 : SourceFail (env.api (s.apiCount + 2)))
    (ha3 : env.api (s.apiCount + 3) =
      .resp ⟨200, x3, b3, some (.obj [("items", .arr items)])⟩)
    (hitems : items.isEmpty = false) :
    getRecommendedTracks env (some t) mood s =
      (.ok (extractSavedUris items),
       { s with
         apiCount := s.apiCount + 4
         events := s.events ++
           [Event.dispatch (buildFullUrl "/me/top/artists?limit=5") "GET" t
             none,
            Event.dispatch (buildFullUrl "/me/top/tracks?limit=5") "GET" t
             none,
            Event.dispatch (buildFullUrl "/me/top/tracks?limit=25") "GET" t
             none,
            Event.dispatch (buildFullUrl "/me/tracks?limit=25") "GET" t
             none] }) := by
  have hf0 := spotifyFetch_sourceFail env "/me/top/artists?limit=5" t {} s
    ht he hsf0
  unfold getRecommendedTracks
  rw [if_neg hmne, hmm]
  dsimp only
  rcases hf0 with h0 | h0 | h0 <;> rw [h0] <;>
    dsimp only [jGet, List.lookup] <;>
  · rw [chainTail_stop_at_saved env t targets _ items x3 b3 ht
      (by simp [afterDispatch, he]) (by simpa [afterDispatch] using hsf1)
      (by simpa [afterDispatch] using hsf2)
      (by simpa [afterDispatch] using ha3) hitems]
    simp [afterDispatch]

/-- C6 (amended): the fallback chain, in order, is (a) recommendation
seeded by the caller's top artists, (b) recommendation seeded by the
caller's top tracks, (c) direct return of top tracks, (d) direct return
of saved tracks, (e) the static built-in list — there is no genre-seeded
recommendation stage.  Each attempt is non-fatal, and the chain stops at
the first step that yields one or more tracks (each query capped at 25
via its `limit` parameter): the five conjuncts below pin the dispatched
request sequence and the result at each possible stop. -/
theorem claim_C6_amended :
    (∀ env t mood targets s artItems ts x0 x1 b0 b1,
      (t : String) ≠ "" → (s : St).store.token_expiry = none →
      (mood : String) ≠ "" → moodMap (strToLower mood) = some targets →
      (env : Env).api s.apiCount =
        .resp ⟨200, x0, b0,
          some (.obj [("items", .arr (artItems : List JVal))])⟩ →
      artItems.isEmpty = false →
      ((extractIds artItems).take 5).isEmpty = false →
      joinIds ((extractIds artItems).take 5) ≠ "" →
      env.api (s.apiCount + 1) =
        .resp ⟨200, x1, b1, some (.obj [("tracks", .arr (ts : List JVal))])⟩ →
      ts.isEmpty = false → (extractUris ts).isEmpty = false →
      getRecommendedTracks env (some t) mood s =
        (.ok (extractUris ts),
         { s with
           apiCount := s.apiCount + 2
           events := s.events ++
             [Event.dispatch (buildFullUrl "/me/top/artists?limit=5") "GET"
               t none,
              Event.dispatch (buildFullUrl ("/recommendations?" ++
                paramsToString (paramsSet
                  (buildRecommendationParams targets 25) "seed_artists"
                  (joinIds ((extractIds artItems).take 5))))) "GET" t
               none] })) ∧
    (∀ env t mood targets s artItems tItems ts2 x0 x1 x2 x3 b0 b1 b2 b3,
      (t : String) ≠ "" → (s : St).store.token_expiry = none →
      (mood : String) ≠ "" → moodMap (strToLower mood) = some targets →
      (env : Env).api s.apiCount =
        .resp ⟨200, x0, b0,
          some (.obj [("items", .arr (artItems : List JVal))])⟩ →
      artItems.isEmpty = false →
      ((extractIds artItems).take 5).isEmpty = false →
      joinIds ((extractIds artItems).take 5) ≠ "" →
      env.api (s.apiCount + 1) =
        .resp ⟨200, x1, b1, some (.obj [("tracks", .arr [])])⟩ →
      env.api (s.apiCount + 2) =
        .resp ⟨200, x2, b2,
          some (.obj [("items", .arr (tItems : List JVal))])⟩ →
      tItems.isEmpty = false →
      ((extractIds tItems).take 5).isEmpty = false →
      joinIds ((extractIds tItems).take 5) ≠ "" →
      env.api (s.apiCount + 3) =
        .resp ⟨200, x3, b3,
          some (.obj [("tracks", .arr (ts2 : List JVal))])⟩ →
      ts2.isEmpty = false → (extractUris ts2).isEmpty = false →
      getRecommendedTracks env (some t) mood s =
        (.ok (extractUris ts2),
         { s with
           apiCount := s.apiCount + 4
           events := s.events ++
             [Event.dispatch (buildFullUrl "/me/top/artists?limit=5") "GET"
               t none,
              Event.dispatch (buildFullUrl ("/recommendations?" ++
                paramsToString (paramsSet
                  (buildRecommendationParams targets 25) "seed_artists"
                  (joinIds ((extractIds artItems).take 5))))) "GET" t none,
              Event.dispatch (buildFullUrl "/me/top/tracks?limit=5") "GET"
               t none,
              Event.dispatch (buildFullUrl ("/recommendations?" ++
                paramsToString (paramsSet
                  (buildRecommendationParams targets 25) "seed_tracks"
                  (joinIds ((extractIds tItems).take 5))))) "GET" t
               none] })) ∧
    (∀ env t mood targets s items x2 b2,
      (t : String) ≠ "" → (s : St).store.token_expiry = none →
      (mood : String) ≠ "" → moodMap (strToLower mood) = some targets →
      SourceFail ((env : Env).api s.apiCount) →
      SourceFail (env.api (s.apiCount + 1)) →
      env.api (s.apiCount + 2) =
        .resp ⟨200, x2, b2,
          some (.obj [("items", .arr (items : List JVal))])⟩ →
      items.isEmpty = false →
      getRecommendedTracks env (some t) mood s =
        (.ok (extractUris items),
         { s with
           apiCount := s.apiCount + 3
           events := s.events ++
             [Event.dispatch (buildFullUrl "/me/top/artists?limit=5") "GET"
               t none,
              Event.dispatch (buildFullUrl "/me/top/tracks?limit=5") "GET"
               t none,
              Event.dispatch (buildFullUrl "/me/top/tracks?limit=25") "GET"
               t none] })) ∧
    (∀ env t mood targets s items x3 b3,
      (t : String) ≠ "" → (s : St).store.token_expiry = none →
      (mood : String) ≠ "" → moodMap (strToLower mood) = some targets →
      SourceFail ((env : Env).api s.apiCount) →
      SourceFail (env.api (s.apiCount + 1)) →
      SourceFail (env.api (s.apiCount + 2)) →
      env.api (s.apiCount + 3) =
        .resp ⟨200, x3, b3,
          some (.obj [("items", .arr (items : List JVal))])⟩ →
      items.isEmpty = false →
      getRecommendedTracks env (some t) mood s =
        (.ok (extractSavedUris items),
         { s with
           apiCount := s.apiCount + 4
           events := s.events ++
             [Event.dispatch (buildFullUrl "/me/top/artists?limit=5") "GET"
               t none,
              Event.dispatch (buildFullUrl "/me/top/tracks?limit=5") "GET"
               t none,
              Event.dispatch (buildFullUrl "/me/top/tracks?limit=25") "GET"
               t none,
              Event.dispatch (buildFullUrl "/me/tracks?limit=25") "GET" t
               none] })) ∧
    (∀ env t mood targets s,
      (t : String) ≠ "" → (s : St).store.token_expiry = none →
      (mood : String) ≠ "" → moodMap (strToLower mood) = some targets →
      (∀ n, s.apiCount ≤ n → SourceFail ((env : Env).api n)) →
      (getRecommendedTracks env (some t) mood s).1 =
        .ok (STATIC_FALLBACK_URIS.take 25)) := by
  refine ⟨?_, ?_, ?_, ?_, ?_⟩
  · intro env t mood targets s artItems ts x0 x1 b0 b1 ht he hmne hmm ha0
      hart hids hjoin ha1 hts hus
    exact chain_stop_at_artist_seeded env t mood targets s artItems ts x0
      x1 b0 b1 ht he hmne hmm ha0 hart hids hjoin ha1 hts hus
  · intro env t mood targets s artItems tItems ts2 x0 x1 x2 x3 b0 b1 b2 b3
      ht he hmne hmm ha0 hart hids hjoin ha1 ha2 hitems hids2 hjoin2 ha3
      hts hus
    exact chain_stop_at_track_seeded env t mood targets s artItems tItems
      ts2 x0 x1 x2 x3 b0 b1 b2 b3 ht he hmne hmm ha0 hart hids hjoin ha1
      ha2 hitems hids2 hjoin2 ha3 hts hus
  · intro env t mood targets s items x2 b2 ht he hmne hmm hsf0 hsf1 ha2
      hitems
    exact chain_stop_at_direct_top_tracks env t mood targets s items x2 b2
      ht he hmne hmm hsf0 hsf1 ha2 hitems
  · intro env t mood targets s items x3 b3 ht he hmne hmm hsf0 hsf1 hsf2
      ha3 hitems
    exact chain_stop_at_saved_tracks env t mood targets s items x3 b3 ht
      he hmne hmm hsf0 hsf1 hsf2 ha3 hitems
  · intro env t mood targets s ht he hmne hmm hall
    exact (getRecommendedTracks_exhaust env t mood targets s ht he hmne
      hmm hall).1

/-- Environment for the C6 amended witness: artists yield a seed and the
artist-seeded recommendation yields one track. -/
def envC6a : Env :=
  ⟨fun n =>
    if n = 0 then
      .resp ⟨200, "OK", none,
        some (.obj [("items", .arr [.obj [("id", .str "a1")]])])⟩
    else if n = 1 then
      .resp ⟨200, "OK", none,
        some (.obj [("tracks", .arr [.obj [("uri", .str "u1")]])])⟩
    else .resp resp500,
   fun _ => .net⟩

/-- C6 amended witness: a concrete run that stops at the artist-seeded
step after two dispatches, and the concrete full-exhaustion run ending
at the static list. -/
theorem claim_C6_amended_witness :
    (getRecommendedTracks envC6a (some "TOK") "chill" stB).1 =
      .ok [.str "u1"] ∧
    (getRecommendedTracks envC6a (some "TOK") "chill" stB).2.apiCount =
      2 ∧
    (getRecommendedTracks envAllFail (some "TOK") "chill" stB).1 =
      .ok (STATIC_FALLBACK_URIS.take 25) := by
  have h := claim_C6_amended.1 envC6a "TOK" "chill" _ stB
    [.obj [("id", .str "a1")]] [.obj [("uri", .str "u1")]] "OK" "OK" none
    none (by decide) rfl (by decide) rfl rfl rfl rfl (by decide) rfl rfl
    rfl
  have h5 := claim_C6_amended.2.2.2.2 envAllFail "TOK" "chill" _ stB
    (by decide) rfl (by decide) rfl (fun n _ => Or.inr (Or.inl rfl))
  exact ⟨by rw [h]; rfl, by rw [h]; rfl, h5⟩

end MoodPlaylist
